import Mathlib

/-!
Verification development for the go-ddns-controller repository.

This file shallowly embeds the Go source of the controller:

* `api/v1alpha1/conditions/conditions.go` — the condition ledger
  (`GetCondition`, `SetCondition`, `FillConditions`, the condition options);
* `api/v1alpha1/conditions/set_conditions.go` — `PatchConditions`;
* `internal/controller/provider_controller.go` — the Provider reconciler
  (`Reconcile`, `FetchSecret`, `FetchConfig`, `FetchClient`, `PatchStatus`,
  `UpdateConditions`, `updateProviderIp`, `updatePublicIp`);
* `internal/controller/notifier_controller.go` — the Notifier reconciler
  (`Reconcile`, `markAsReady`, `notifyOfChange`, `fetchNotifier`,
  `fetchConfig`, `fetchSecret`, `patchStatus`, `patchObservedGeneration`,
  `patchIsReady`);
* `internal/network/ip.go` — `GetPublicIp`.

External collaborators (the Kubernetes API server, the DNS client, the
notification transport, HTTP bodies) are modelled as environments of
call outcomes; every network call consumes the outcome the environment
assigns to it, and the side effects the controllers perform (SetIp calls,
notification sends, status patches) are recorded in an explicit trace so
that theorems can speak about them.  Machine strings stay `String`,
`int64` fields become `Int`, Go `error` values become `Except String`.
-/

namespace DDNS

/-- Status values of `metav1.ConditionStatus`; they are strings in Go. -/
def conditionTrue : String := "True"

def conditionFalse : String := "False"

def conditionUnknown : String := "Unknown"

/-- `metav1.Condition`: type, status, reason, message, observedGeneration,
lastTransitionTime.  Time is modelled as a `Nat` stamp; the zero value
plays the role of Go's zero `metav1.Time`. -/
structure Condition where
  ctype : String
  status : String
  reason : String
  message : String
  observedGeneration : Int := 0
  lastTransitionTime : Nat := 0
  deriving Repr, DecidableEq

/-- `meta.FindStatusCondition` / `Conditions.GetCondition`: the first
condition whose type matches. -/
def getCondition (conds : List Condition) (ctype : String) : Option Condition :=
  conds.find? (fun c => c.ctype == ctype)

/-- Replace the first element satisfying `p` by `f` of it, reporting the
`Bool` the update returned.  Helper for the in-place pointer updates the
Go condition code performs on the slice element it found. -/
def updateFirst (p : α → Bool) (f : α → α × Bool) : List α → List α × Bool
  | [] => ([], false)
  | x :: xs =>
    if p x then
      let r := f x
      (r.1 :: xs, r.2)
    else
      let r := updateFirst p f xs
      (x :: r.1, r.2)

/-- The in-place update `meta.SetStatusCondition` performs on the
existing condition it found: status / reason / message /
observedGeneration are each overwritten when they differ,
`lastTransitionTime` is refreshed only when the status changed. -/
def setStatusUpdater (now : Nat) (newC : Condition) : Condition → Condition × Bool :=
  fun ex =>
    let r1 :=
      if ex.status ≠ newC.status then
        ({ ex with
            status := newC.status
            lastTransitionTime :=
              if newC.lastTransitionTime = 0 then now else newC.lastTransitionTime },
          true)
      else (ex, false)
    let ex1 := r1.1
    let r2 :=
      if ex1.reason ≠ newC.reason then ({ ex1 with reason := newC.reason }, true)
      else (ex1, false)
    let ex2 := r2.1
    let r3 :=
      if ex2.message ≠ newC.message then ({ ex2 with message := newC.message }, true)
      else (ex2, false)
    let ex3 := r3.1
    let r4 :=
      if ex3.observedGeneration ≠ newC.observedGeneration then
        ({ ex3 with observedGeneration := newC.observedGeneration }, true)
      else (ex3, false)
    (r4.1, r1.2 || r2.2 || r3.2 || r4.2)

/-- `meta.SetStatusCondition` from k8s.io/apimachinery (the library the
controllers call): append the condition when its type is absent, otherwise
update it in place through `setStatusUpdater`; returns whether anything
changed. -/
def SetStatusCondition (now : Nat) (conds : List Condition) (newC : Condition) :
    List Condition × Bool :=
  match getCondition conds newC.ctype with
  | none =>
    (conds ++ [{ newC with
        lastTransitionTime :=
          if newC.lastTransitionTime = 0 then now else newC.lastTransitionTime }], true)
  | some _ =>
    updateFirst (fun c => c.ctype == newC.ctype) (setStatusUpdater now newC) conds

/-- `Conditions.addUnknownCondition`: insert an Unknown/Unknown placeholder
through `meta.SetStatusCondition`. -/
def addUnknownCondition (now : Nat) (conds : List Condition) (ctype : String) :
    List Condition × Bool :=
  SetStatusCondition now conds
    { ctype := ctype, status := conditionUnknown, reason := "Unknown", message := "Unknown" }

/-- `Conditions.FillConditions`: for every declared condition type absent
from the list, insert an Unknown placeholder; report whether the list
changed. -/
def fillConditions (now : Nat) (ctypes : List String) (conds : List Condition) :
    List Condition × Bool :=
  ctypes.foldl
    (fun acc ctype =>
      match getCondition acc.1 ctype with
      | some _ => acc
      | none =>
        let r := addUnknownCondition now acc.1 ctype
        (r.1, acc.2 || r.2))
    (conds, false)

/-- `conditions.ConditionOption`: a mutation on a condition reporting
whether it changed anything. -/
def ConditionOption : Type := Condition → Condition × Bool

/-- `conditions.WithMessage`. -/
def withMessage (message : String) : ConditionOption := fun c =>
  if c.message = message then (c, false) else ({ c with message := message }, true)

/-- `conditions.WithReason`. -/
def withReason (reason : String) : ConditionOption := fun c =>
  if c.reason = reason then (c, false) else ({ c with reason := reason }, true)

/-- `conditions.WithReasonAndMessage`. -/
def withReasonAndMessage (reason message : String) : ConditionOption := fun c =>
  let r1 := withReason reason c
  let r2 := withMessage message r1.1
  (r2.1, r1.2 || r2.2)

/-- `conditions.True`. -/
def optionTrue : ConditionOption := fun c =>
  if c.status = conditionTrue then (c, false) else ({ c with status := conditionTrue }, true)

/-- `conditions.False`. -/
def optionFalse : ConditionOption := fun c =>
  if c.status = conditionFalse then (c, false) else ({ c with status := conditionFalse }, true)

/-- `conditions.WithObservedGeneration`. -/
def withObservedGeneration (generation : Int) : ConditionOption := fun c =>
  if c.observedGeneration = generation then (c, false)
  else ({ c with observedGeneration := generation }, true)

/-- Apply a list of options in order, or-ing their change reports,
exactly as the loop in `Conditions.SetCondition` does. -/
def applyOptions (opts : List ConditionOption) (c : Condition) : Condition × Bool :=
  opts.foldl (fun acc opt =>
    let r := opt acc.1
    (r.1, acc.2 || r.2)) (c, false)

/-- `Conditions.SetCondition`: create the condition as Unknown when it is
absent, apply the options to it in place, stamp `lastTransitionTime` only
when something changed, return whether a change occurred. -/
def setCondition (now : Nat) (conds : List Condition) (ctype : String)
    (opts : List ConditionOption) : List Condition × Bool :=
  let start :=
    match getCondition conds ctype with
    | some _ => (conds, false)
    | none => addUnknownCondition now conds ctype
  let r := updateFirst (fun c => c.ctype == ctype) (applyOptions opts) start.1
  let changed := start.2 || r.2
  if changed then
    ((updateFirst (fun c => c.ctype == ctype)
        (fun c => ({ c with lastTransitionTime := now }, true)) r.1).1, true)
  else (r.1, false)

/-! ## Data model: Provider and Notifier custom resources -/

/-- `v1alpha1.ResourceRef`. -/
structure ResourceRef where
  name : String
  namespace_ : String
  deriving Repr, DecidableEq

/-- `v1alpha1.ProviderSpec`. -/
structure ProviderSpec where
  name : String
  secretName : String
  configMap : String
  retryInterval : Int := 900
  customIPProvider : String := ""
  notifierRefs : List ResourceRef := []
  deriving Repr, DecidableEq

/-- `v1alpha1.ProviderStatus`. -/
structure ProviderStatus where
  providerIP : String := ""
  publicIP : String := ""
  observedGeneration : Int := 0
  conditions : List Condition := []
  deriving Repr, DecidableEq

/-- `v1alpha1.Provider`: the object metadata the controllers consult
(name, namespace, generation, annotations) plus spec and status.
Annotations are an association list keyed by annotation name. -/
structure Provider where
  name : String
  namespace_ : String
  generation : Int := 0
  annotations : List (String × String) := []
  spec : ProviderSpec
  status : ProviderStatus := {}
  deriving Repr, DecidableEq

/-- Map lookup on the annotations of an object
(`provider.Annotations[key]` with its `ok` flag). -/
def lookupAnnot (annots : List (String × String)) (key : String) : Option String :=
  (annots.find? (fun kv => kv.1 == key)).map (·.2)

/-- Map write `provider.Annotations[key] = value`. -/
def setAnnot (annots : List (String × String)) (key value : String) :
    List (String × String) :=
  match annots.find? (fun kv => kv.1 == key) with
  | none => annots ++ [(key, value)]
  | some _ => annots.map (fun kv => if kv.1 == key then (key, value) else kv)

/-- `v1alpha1.NotifierSpec`. -/
structure NotifierSpec where
  name : String
  secretName : String
  configMap : String
  deriving Repr, DecidableEq

/-- `v1alpha1.NotifierStatus`. -/
structure NotifierStatus where
  isReady : Bool := false
  observedGeneration : Int := 0
  conditions : List Condition := []
  deriving Repr, DecidableEq

/-- `v1alpha1.Notifier`. -/
structure Notifier where
  name : String
  namespace_ : String
  generation : Int := 0
  spec : NotifierSpec
  status : NotifierStatus := {}
  deriving Repr, DecidableEq

/-- `ddns.stefangenov.site`, the API group
(`ddnsv1alpha1.GroupVersion.Group`). -/
def groupName : String := "ddns.stefangenov.site"

/-- Condition types of the Provider (`ProviderConditionTypeClient`,
`ProviderConditionTypeConfigMap`, `ProviderConditionTypeSecret` in
`provider_types.go`). -/
def ProviderConditionTypeClient : String := "Client"

def ProviderConditionTypeConfigMap : String := "ConfigMap"

def ProviderConditionTypeSecret : String := "Secret"

/-- Modelled from the spec: the constants of the
`api/v1alpha1/provider/conditions` package (imported as
`providerConditions` by `provider_controller.go`) are not among the
shipped sources; §6 of the spec fixes the condition type names
`ConfigMap`, `Secret`, `Client` and the reasons `ConfigMapFound`,
`SecretFound`, `ClientCreated` for both resource kinds. -/
def SecretConditionType : String := "Secret"

def SecretFound : String := "SecretFound"

def ConfigMapConditionType : String := "ConfigMap"

def ConfigMapFound : String := "ConfigMapFound"

def ClientConditionType : String := "Client"

def ClientCreated : String := "ClientCreated"

/-- Modelled from the spec: the `NotifierConditionType*` constants and
`Notifier.Conditions()` (its `ConditionTypes` list) referenced by
`notifier_controller.go` are not among the shipped sources; §6 of the
spec fixes the type names `ConfigMap`, `Secret`, `Client`, and the
repository's notifier test asserts the filled conditions appear in the
order ConfigMap, Secret, Client. -/
def NotifierConditionTypeClient : String := "Client"

def NotifierConditionTypeConfigMap : String := "ConfigMap"

def NotifierConditionTypeSecret : String := "Secret"

/-- Modelled from the spec: the declared condition types of a Notifier,
in the order the repository's notifier test observes them after
`FillConditions`. -/
def notifierConditionTypes : List String :=
  [NotifierConditionTypeConfigMap, NotifierConditionTypeSecret, NotifierConditionTypeClient]

/-! ## Provider reconciler (`internal/controller/provider_controller.go`)

Outcomes of the external calls a pass performs are supplied by a
`ProviderEnv`; `statusPatch n` is the outcome of the `n`-th
`r.Status().Patch` network call of the pass.  The pass's observable
footprint (in-memory object, server-persisted status, number of patch
calls, `SetIp` invocations) is threaded through a `ProvState`. -/

structure ProviderEnv where
  now : Nat
  getPublicIp : Except String String
  secretGet : Except String Unit
  configMapGet : Except String Unit
  createClient : Except String Unit
  clientGetIp : Except String String
  clientSetIp : String → Except String Unit
  statusPatch : Nat → Except String Unit

structure ProvState where
  provider : Provider
  persistedStatus : ProviderStatus
  patchCount : Nat := 0
  setIpCalls : List String := []

/-- JSON merge-patch application for a Provider status
(`client.MergeFrom(provider.DeepCopy())` followed by
`r.Status().Patch`): a field is carried to the server copy only when it
differs between the pre-mutation snapshot and the mutated object. -/
def mergeProviderStatus (snap cur server : ProviderStatus) : ProviderStatus :=
  { providerIP := if snap.providerIP = cur.providerIP then server.providerIP else cur.providerIP
    publicIP := if snap.publicIP = cur.publicIP then server.publicIP else cur.publicIP
    observedGeneration :=
      if snap.observedGeneration = cur.observedGeneration then server.observedGeneration
      else cur.observedGeneration
    conditions := if snap.conditions = cur.conditions then server.conditions else cur.conditions }

/-- `ProviderReconciler.PatchStatus`: take a merge-from snapshot, run the
mutation, and perform the status patch network call only when the
mutation reported a change; a failing patch surfaces its error. -/
def PatchStatus (env : ProviderEnv) (s : ProvState) (apply : Provider → Provider × Bool) :
    ProvState × Except String Unit :=
  let snap := s.provider.status
  let r := apply s.provider
  if r.2 then
    let s' := { s with provider := r.1, patchCount := s.patchCount + 1 }
    match env.statusPatch s.patchCount with
    | Except.ok _ =>
      ({ s' with persistedStatus := mergeProviderStatus snap r.1.status s.persistedStatus },
        Except.ok ())
    | Except.error e => (s', Except.error e)
  else ({ s with provider := r.1 }, Except.ok ())

/-- `ProviderReconciler.updateProviderIp`. -/
def updateProviderIp (providerIp : String) (p : Provider) : Provider × Bool :=
  if p.status.providerIP = providerIp then (p, false)
  else ({ p with status := { p.status with providerIP := providerIp } }, true)

/-- `ProviderReconciler.updatePublicIp`. -/
def updatePublicIp (publicIp : String) (p : Provider) : Provider × Bool :=
  if p.status.publicIP = publicIp then (p, false)
  else ({ p with status := { p.status with publicIP := publicIp } }, true)

/-- `ProviderReconciler.UpdateConditions`: stamp the caller's condition
with the resource generation, fold it into the conditions via
`meta.SetStatusCondition`, and persist through `PatchStatus`. -/
def UpdateConditions (env : ProviderEnv) (s : ProvState) (condition : Condition) :
    ProvState × Except String Unit :=
  PatchStatus env s (fun p =>
    let condition := { condition with observedGeneration := p.generation }
    let r := SetStatusCondition env.now p.status.conditions condition
    ({ p with status := { p.status with conditions := r.1 } }, r.2))

/-- `ProviderReconciler.FetchSecret`: record the Secret condition from
the Get outcome, then return the (always allocated) Secret object and a
`nil` error — the Get error itself is not propagated. -/
def FetchSecret (env : ProviderEnv) (s : ProvState) :
    ProvState × Option Unit × Except String Unit :=
  let ms :=
    match env.secretGet with
    | Except.error _ =>
      ("Secret " ++ s.provider.spec.secretName ++ " not found", conditionFalse)
    | Except.ok _ =>
      ("Secret " ++ s.provider.spec.secretName ++ " found", conditionTrue)
  let condition : Condition :=
    { ctype := SecretConditionType, reason := SecretFound, message := ms.1, status := ms.2 }
  let r := UpdateConditions env s condition
  (r.1, some (), Except.ok ())

/-- `ProviderReconciler.FetchConfig`: record the ConfigMap condition from
the Get outcome and propagate the Get error. -/
def FetchConfig (env : ProviderEnv) (s : ProvState) :
    ProvState × Option Unit × Except String Unit :=
  let mse :=
    match env.configMapGet with
    | Except.error e =>
      ("ConfigMap " ++ s.provider.spec.configMap ++ " not found", conditionFalse,
        Except.error e)
    | Except.ok _ =>
      ("ConfigMap " ++ s.provider.spec.configMap ++ " found", conditionTrue, Except.ok ())
  let condition : Condition :=
    { ctype := ConfigMapConditionType, reason := ConfigMapFound
      message := mse.1, status := mse.2.1 }
  let r := UpdateConditions env s condition
  (r.1, some (), mse.2.2)

/-- `ProviderReconciler.FetchClient`: fetch Secret then ConfigMap, build
the client (`CreateClient`, whose outcome the environment supplies),
record the Client condition, and return the construction error. -/
def FetchClient (env : ProviderEnv) (s : ProvState) : ProvState × Except String Unit :=
  let rs := FetchSecret env s
  match rs.2.2 with
  | Except.error e => (rs.1, Except.error e)
  | Except.ok _ =>
    let rc := FetchConfig env rs.1
    match rc.2.2 with
    | Except.error e => (rc.1, Except.error e)
    | Except.ok _ =>
      let mse :=
        match env.createClient with
        | Except.error e =>
          ("could not create client: " ++ e, conditionFalse, Except.error e)
        | Except.ok _ => ("Client created", conditionTrue, Except.ok ())
      let condition : Condition :=
        { ctype := ClientConditionType, reason := ClientCreated
          message := mse.1, status := mse.2.1 }
      let r := UpdateConditions env rc.1 condition
      (r.1, mse.2.2)

/-- The observed-generation closure of `ProviderReconciler.Reconcile`:
advance `status.observedGeneration` to `metadata.generation` if it
differs. -/
def updateObservedGeneration (p : Provider) : Provider × Bool :=
  if p.status.observedGeneration = p.generation then (p, false)
  else ({ p with status := { p.status with observedGeneration := p.generation } }, true)

/-- `ctrl.Result`: requeue flag and delay in seconds. -/
structure ReconcileResult where
  requeue : Bool := false
  requeueAfterSeconds : Int := 0
  deriving Repr, DecidableEq

/-- `ProviderReconciler.Reconcile` for a fetched Provider object: fetch
the public IP, patch `status.publicIP`, build the client, read the
provider IP, patch `status.providerIP`, correct a desync through
`Client.SetIp` (recorded in the trace), patch `status.providerIP` again,
and finally patch `status.observedGeneration`; every failing step aborts
the pass with its error. -/
def ProviderReconcile (env : ProviderEnv) (p0 : Provider) :
    ProvState × Except String ReconcileResult :=
  let s0 : ProvState := { provider := p0, persistedStatus := p0.status }
  match env.getPublicIp with
  | Except.error e => (s0, Except.error e)
  | Except.ok publicIp =>
    let r1 := PatchStatus env s0 (updatePublicIp publicIp)
    match r1.2 with
    | Except.error e => (r1.1, Except.error e)
    | Except.ok _ =>
      let r2 := FetchClient env r1.1
      match r2.2 with
      | Except.error e => (r2.1, Except.error e)
      | Except.ok _ =>
        match env.clientGetIp with
        | Except.error e => (r2.1, Except.error e)
        | Except.ok providerIp =>
          let r3 := PatchStatus env r2.1 (updateProviderIp providerIp)
          match r3.2 with
          | Except.error e => (r3.1, Except.error e)
          | Except.ok _ =>
            let s3 := r3.1
            let r4 :=
              if s3.provider.status.publicIP ≠ s3.provider.status.providerIP then
                let s3' := { s3 with
                  setIpCalls := s3.setIpCalls ++ [s3.provider.status.publicIP] }
                match env.clientSetIp s3.provider.status.publicIP with
                | Except.error e => (s3', Except.error e)
                | Except.ok _ =>
                  PatchStatus env s3' (updateProviderIp s3'.provider.status.publicIP)
              else (s3, Except.ok ())
            match r4.2 with
            | Except.error e => (r4.1, Except.error e)
            | Except.ok _ =>
              let r5 := PatchStatus env r4.1 updateObservedGeneration
              match r5.2 with
              | Except.error e => (r5.1, Except.error e)
              | Except.ok _ =>
                (r5.1, Except.ok
                  { requeue := true
                    requeueAfterSeconds := r5.1.provider.spec.retryInterval })

/-! ## Notifier reconciler (`internal/controller/notifier_controller.go`)

Same modelling discipline as the Provider reconciler.  `statusPatch n`
is the outcome of the `n`-th `r.Status().Patch` on the Notifier;
`providerPatch n` the outcome of the `n`-th `r.Patch` on a Provider
object (the annotation merge-patch).  Greeting sends, notification sends
and the Providers visited by the pass are recorded in the trace. -/

structure NotifierEnv where
  now : Nat
  configMapGet : Except String Unit
  secretGet : Except String Unit
  factory : Except String Unit
  sendGreetings : Except String Unit
  sendNotification : String → Except String Unit
  listProviders : Except String (List Provider)
  statusPatch : Nat → Except String Unit
  providerPatch : Nat → Except String Unit

structure NotifState where
  notifier : Notifier
  persistedStatus : NotifierStatus
  statusPatchCount : Nat := 0
  providerPatchCount : Nat := 0
  greetingsSent : Nat := 0
  notificationsSent : List String := []
  listedProviders : Bool := false
  patchedProviders : List Provider := []

/-- JSON merge-patch application for a Notifier status. -/
def mergeNotifierStatus (snap cur server : NotifierStatus) : NotifierStatus :=
  { isReady := if snap.isReady = cur.isReady then server.isReady else cur.isReady
    observedGeneration :=
      if snap.observedGeneration = cur.observedGeneration then server.observedGeneration
      else cur.observedGeneration
    conditions := if snap.conditions = cur.conditions then server.conditions else cur.conditions }

/-- `NotifierReconciler.patchStatus`: merge-from snapshot, run the
mutation, patch only when it reported a change, surface patch errors. -/
def notifPatchStatus (env : NotifierEnv) (s : NotifState)
    (apply : Notifier → Notifier × Bool) : NotifState × Except String Unit :=
  let snap := s.notifier.status
  let r := apply s.notifier
  if r.2 then
    let s' := { s with notifier := r.1, statusPatchCount := s.statusPatchCount + 1 }
    match env.statusPatch s.statusPatchCount with
    | Except.ok _ =>
      ({ s' with persistedStatus := mergeNotifierStatus snap r.1.status s.persistedStatus },
        Except.ok ())
    | Except.error e => (s', Except.error e)
  else ({ s with notifier := r.1 }, Except.ok ())

/-- `NotifierReconciler.patchObservedGeneration`. -/
def patchObservedGeneration (observedGeneration : Int) (n : Notifier) : Notifier × Bool :=
  if n.status.observedGeneration = observedGeneration then (n, false)
  else ({ n with status := { n.status with observedGeneration := observedGeneration } }, true)

/-- `NotifierReconciler.patchIsReady`. -/
def patchIsReady (isReady : Bool) (n : Notifier) : Notifier × Bool :=
  if n.status.isReady = isReady then (n, false)
  else ({ n with status := { n.status with isReady := isReady } }, true)

/-- `conditions.PatchConditions` specialised to the Notifier: append the
observed-generation option, run `SetCondition`, and patch the status
subresource only when the condition changed. -/
def PatchConditions (env : NotifierEnv) (s : NotifState) (ctype : String)
    (opts : List ConditionOption) : NotifState × Except String Unit :=
  let snap := s.notifier.status
  let opts := opts ++ [withObservedGeneration s.notifier.generation]
  let r := setCondition env.now s.notifier.status.conditions ctype opts
  let notifier' := { s.notifier with status := { s.notifier.status with conditions := r.1 } }
  if r.2 then
    let s' := { s with notifier := notifier', statusPatchCount := s.statusPatchCount + 1 }
    match env.statusPatch s.statusPatchCount with
    | Except.ok _ =>
      ({ s' with
          persistedStatus := mergeNotifierStatus snap notifier'.status s.persistedStatus },
        Except.ok ())
    | Except.error e => (s', Except.error e)
  else ({ s with notifier := notifier' }, Except.ok ())

/-- `NotifierReconciler.fetchConfig`: record the ConfigMap condition
(underlying error message on failure, "ConfigMap `<name>` found" on
success) and propagate the Get error. -/
def notifFetchConfig (env : NotifierEnv) (s : NotifState) :
    NotifState × Option Unit × Except String Unit :=
  let opts :=
    match env.configMapGet with
    | Except.error e => [withReasonAndMessage "ConfigMapFound" e, optionFalse]
    | Except.ok _ =>
      [withReasonAndMessage "ConfigMapFound"
          ("ConfigMap " ++ s.notifier.spec.configMap ++ " found"),
        optionTrue]
  let r := PatchConditions env s NotifierConditionTypeConfigMap opts
  (r.1, some (),
    match env.configMapGet with
    | Except.error e => Except.error e
    | Except.ok _ => Except.ok ())

/-- `NotifierReconciler.fetchSecret`: record the Secret condition
(underlying error message on failure, "Secret `<name>` found" on
success), then return the (always allocated) Secret and a `nil` error —
the Get error is not propagated. -/
def notifFetchSecret (env : NotifierEnv) (s : NotifState) :
    NotifState × Option Unit × Except String Unit :=
  let opts :=
    match env.secretGet with
    | Except.error e => [withReasonAndMessage "SecretFound" e, optionFalse]
    | Except.ok _ =>
      [withReasonAndMessage "SecretFound"
          ("Secret " ++ s.notifier.spec.secretName ++ " found"),
        optionTrue]
  let r := PatchConditions env s NotifierConditionTypeSecret opts
  (r.1, some (), Except.ok ())

/-- `NotifierReconciler.fetchNotifier`: fetch ConfigMap then Secret,
build the notifier client through the injected factory, record the
Client condition, propagate factory errors. -/
def fetchNotifier (env : NotifierEnv) (s : NotifState) : NotifState × Except String Unit :=
  let rc := notifFetchConfig env s
  match rc.2.2 with
  | Except.error e => (rc.1, Except.error ("unable to fetch ConfigMap: " ++ e))
  | Except.ok _ =>
    let rs := notifFetchSecret env rc.1
    match rs.2.2 with
    | Except.error e => (rs.1, Except.error ("unable to fetch Secret: " ++ e))
    | Except.ok _ =>
      let opts :=
        match env.factory with
        | Except.error e =>
          [withReasonAndMessage "ClientCreated" ("could not create client: " ++ e),
            optionFalse]
        | Except.ok _ => [withReasonAndMessage "ClientCreated" "Client created", optionTrue]
      let r := PatchConditions env rs.1 NotifierConditionTypeClient opts
      (r.1,
        match env.factory with
        | Except.error e => Except.error e
        | Except.ok _ => Except.ok ())

/-- `NotifierReconciler.markAsReady`: send the greeting, record the
Client condition from its outcome (the `PatchConditions` error is
discarded), return the wrapped greeting error on failure, otherwise flip
`isReady` through `patchStatus`. -/
def markAsReady (env : NotifierEnv) (s : NotifState) : NotifState × Except String Unit :=
  let s := { s with greetingsSent := s.greetingsSent + 1 }
  let opts :=
    match env.sendGreetings with
    | Except.error e =>
      [withReasonAndMessage "ClientCommunication" ("unable to send greetings: " ++ e),
        optionFalse]
    | Except.ok _ =>
      [withReasonAndMessage "ClientCommunication" "Communications established", optionTrue]
  let r := PatchConditions env s NotifierConditionTypeClient opts
  match env.sendGreetings with
  | Except.error e => (r.1, Except.error ("unable to send greetings: " ++ e))
  | Except.ok _ =>
    let r2 := notifPatchStatus env r.1 (patchIsReady true)
    match r2.2 with
    | Except.error e => (r2.1, Except.error ("unable to mark Notifier as ready: " ++ e))
    | Except.ok _ => (r2.1, Except.ok ())

/-- The composite annotation key
`fmt.Sprintf("%s/%s_%s", GroupVersion.Group, req.Name, req.Namespace)`. -/
def annotKey (reqName reqNamespace : String) : String :=
  groupName ++ "/" ++ reqName ++ "_" ++ reqNamespace

/-- `NotifierReconciler.notifyOfChange` for one Provider: skip when the
stored annotation already carries `status.providerIP` or the IP is
empty; otherwise compose the in-sync / out-of-sync message, send it
(recorded in the trace), and on success persist the annotation on the
Provider through a merge-patch.  Returns the state, the server-side
Provider after the call, and the error. -/
def notifyOfChange (env : NotifierEnv) (reqName reqNamespace : String)
    (s : NotifState) (provider : Provider) :
    NotifState × Provider × Except String Unit :=
  let key := annotKey reqName reqNamespace
  let skip : Bool :=
    match lookupAnnot provider.annotations key with
    | some value => value == provider.status.providerIP
    | none => false
  if skip then (s, provider, Except.ok ())
  else if provider.status.providerIP = "" then (s, provider, Except.ok ())
  else
    let message :=
      if provider.status.providerIP = provider.status.publicIP then
        "Provider IP (" ++ provider.status.providerIP ++
          ") in sync with Public IP. From provider: (" ++ provider.name ++ ")."
      else
        "Provider IP (" ++ provider.status.providerIP ++
          ") out of sync with Public IP (" ++ provider.status.publicIP ++
          "). From provider: (" ++ provider.name ++ ")."
    let provider1 := { provider with
      annotations := setAnnot provider.annotations key provider.status.providerIP }
    let s1 := { s with notificationsSent := s.notificationsSent ++ [message] }
    match env.sendNotification message with
    | Except.error e =>
      let r1 := notifPatchStatus env s1 (patchIsReady false)
      let r2 := PatchConditions env r1.1 NotifierConditionTypeClient
        [withReasonAndMessage "ClientCommunication" ("unable to send notification: " ++ e),
          optionFalse]
      (r2.1, provider, Except.error e)
    | Except.ok _ =>
      let r2 := PatchConditions env s1 NotifierConditionTypeClient
        [withReasonAndMessage "ClientCommunication" "Notification sent", optionTrue]
      let s2 := { r2.1 with providerPatchCount := r2.1.providerPatchCount + 1 }
      match env.providerPatch r2.1.providerPatchCount with
      | Except.error e => (s2, provider, Except.error e)
      | Except.ok _ => (s2, provider1, Except.ok ())

/-- The Provider filter of `NotifierReconciler.Reconcile`: keep the
Providers whose `spec.notifierRefs` contains the request's name. -/
def filterProviders (items : List Provider) (reqName : String) : List Provider :=
  items.filter (fun p => p.spec.notifierRefs.any (fun ref => ref.name == reqName))

/-- The notification loop of `NotifierReconciler.Reconcile`: visit the
filtered Providers in order, recording each one's server-side object
after its `notifyOfChange` call, aborting on the first error. -/
def notifyLoop (env : NotifierEnv) (reqName reqNamespace : String)
    (s : NotifState) : List Provider → NotifState × Except String Unit
  | [] => (s, Except.ok ())
  | p :: rest =>
    let r := notifyOfChange env reqName reqNamespace s p
    let s' := { r.1 with patchedProviders := r.1.patchedProviders ++ [r.2.1] }
    match r.2.2 with
    | Except.error e => (s', Except.error e)
    | Except.ok _ => notifyLoop env reqName reqNamespace s' rest

/-- `NotifierReconciler.Reconcile` for a fetched Notifier object: fill
the declared condition types, build the notifier client, and either run
the greeting cycle (when not ready) with an immediate requeue, or list
the referencing Providers and dispatch change notifications, finally
patching `status.observedGeneration`. -/
def NotifierReconcile (env : NotifierEnv) (reqName reqNamespace : String)
    (n0 : Notifier) : NotifState × Except String ReconcileResult :=
  let filled := (fillConditions env.now notifierConditionTypes n0.status.conditions).1
  let n1 := { n0 with status := { n0.status with conditions := filled } }
  let s0 : NotifState := { notifier := n1, persistedStatus := n0.status }
  let r1 := fetchNotifier env s0
  match r1.2 with
  | Except.error e => (r1.1, Except.error ("unable to fetch notifier: " ++ e))
  | Except.ok _ =>
    if !r1.1.notifier.status.isReady then
      let r2 := markAsReady env r1.1
      match r2.2 with
      | Except.error e => (r2.1, Except.error ("unable to mark Notifier as ready: " ++ e))
      | Except.ok _ => (r2.1, Except.ok { requeue := true })
    else
      match env.listProviders with
      | Except.error e => (r1.1, Except.error ("unable to list Providers: " ++ e))
      | Except.ok items =>
        let s1 := { r1.1 with listedProviders := true }
        let r2 := notifyLoop env reqName reqNamespace s1 (filterProviders items reqName)
        match r2.2 with
        | Except.error e => (r2.1, Except.error ("unable to notify of change: " ++ e))
        | Except.ok _ =>
          let r3 := notifPatchStatus env r2.1
            (patchObservedGeneration r2.1.notifier.generation)
          match r3.2 with
          | Except.error e => (r3.1, Except.error ("unable to update Notifier status: " ++ e))
          | Except.ok _ => (r3.1, Except.ok {})

/-! ## Public IP discovery (`internal/network/ip.go`) -/

/-- The fixed fallback pool `ipProviders`. -/
def ipProviders : List String :=
  ["https://icanhazip.com", "https://api.ipify.org",
    "https://4.ident.me/", "https://api.seeip.org",
    "http://www.trackip.net/ip", "http://ifconfig.me"]

/-- `net.IP.String()` on the result of `net.ParseIP`: a `nil` IP (parse
failure) renders as the literal string `"<nil>"`, a parsed IP as its
canonical text. -/
def ipString : Option String → String
  | none => "<nil>"
  | some s => s

/-- The provider loop of `GetPublicIp`: skip empty entries, skip
providers whose HTTP fetch (`GetBody`) failed, and on the first body
received return `net.ParseIP(strings.TrimSpace(body)).String()` with a
`nil` error; error out only when every provider was exhausted.
`parseIp` models `net.ParseIP ∘ strings.TrimSpace` (an external library
function): `none` is a `nil` parse result, `some s` a parsed IP
rendering as `s`. -/
def getPublicIpLoop (parseIp : String → Option String)
    (getBody : String → Except String String) : List String → Except String String
  | [] => Except.error "could not retrieve a response from any of the providers"
  | provider :: rest =>
    if provider = "" then getPublicIpLoop parseIp getBody rest
    else
      match getBody provider with
      | Except.error _ => getPublicIpLoop parseIp getBody rest
      | Except.ok body => Except.ok (ipString (parseIp body))

/-- `network.GetPublicIp`: the pool plus the custom provider is shuffled
by a time-seeded RNG; the shuffled attempt order is therefore an input
here (any permutation of `ipProviders ++ [customIpProvider]`). -/
def GetPublicIp (parseIp : String → Option String)
    (getBody : String → Except String String) (shuffledProviders : List String) :
    Except String String :=
  getPublicIpLoop parseIp getBody shuffledProviders

/-! ## Specification-side helper definitions -/

/-- The tail of `setCondition` after the present/absent case split:
`L` is the list the options run on and `b` records whether the
create-as-Unknown step already changed something. -/
def setConditionCore (now : Nat) (L : List Condition) (p : Condition → Bool)
    (opts : List ConditionOption) (b : Bool) : List Condition × Bool :=
  let r := updateFirst p (applyOptions opts) L
  if b || r.2 then
    ((updateFirst p (fun c => ({ c with lastTransitionTime := now }, true)) r.1).1, true)
  else (r.1, false)

/-- The notification text `notifyOfChange` composes: the in-sync variant
when `status.providerIP` equals `status.publicIP`, the out-of-sync
variant with both values otherwise. -/
def notificationMessage (provider : Provider) : String :=
  if provider.status.providerIP = provider.status.publicIP then
    "Provider IP (" ++ provider.status.providerIP ++
      ") in sync with Public IP. From provider: (" ++ provider.name ++ ")."
  else
    "Provider IP (" ++ provider.status.providerIP ++
      ") out of sync with Public IP (" ++ provider.status.publicIP ++
      "). From provider: (" ++ provider.name ++ ")."

/-- The observables of a Provider reconcile state outside the condition
list: a step satisfying `provFrame s s'` touched at most conditions and
patch counters. -/
def provFrame (s s' : ProvState) : Prop :=
  s'.provider.name = s.provider.name ∧
  s'.provider.namespace_ = s.provider.namespace_ ∧
  s'.provider.generation = s.provider.generation ∧
  s'.provider.annotations = s.provider.annotations ∧
  s'.provider.spec = s.provider.spec ∧
  s'.provider.status.providerIP = s.provider.status.providerIP ∧
  s'.provider.status.publicIP = s.provider.status.publicIP ∧
  s'.provider.status.observedGeneration = s.provider.status.observedGeneration ∧
  s'.persistedStatus.providerIP = s.persistedStatus.providerIP ∧
  s'.persistedStatus.publicIP = s.persistedStatus.publicIP ∧
  s'.persistedStatus.observedGeneration = s.persistedStatus.observedGeneration ∧
  s'.setIpCalls = s.setIpCalls

/-- The observables of a Notifier reconcile state outside the condition
list: a step satisfying `notifFrame s s'` touched at most conditions and
patch counters. -/
def notifFrame (s s' : NotifState) : Prop :=
  s'.notifier.name = s.notifier.name ∧
  s'.notifier.namespace_ = s.notifier.namespace_ ∧
  s'.notifier.generation = s.notifier.generation ∧
  s'.notifier.spec = s.notifier.spec ∧
  s'.notifier.status.isReady = s.notifier.status.isReady ∧
  s'.notifier.status.observedGeneration = s.notifier.status.observedGeneration ∧
  s'.persistedStatus.isReady = s.persistedStatus.isReady ∧
  s'.persistedStatus.observedGeneration = s.persistedStatus.observedGeneration ∧
  s'.greetingsSent = s.greetingsSent ∧
  s'.notificationsSent = s.notificationsSent ∧
  s'.listedProviders = s.listedProviders ∧
  s'.patchedProviders = s.patchedProviders

/-- Characterisation of the two status-setting condition options: the
option rewrites the status to `target`, leaves every other field alone,
and reports a change whenever the status actually differed. -/
def statusOptionSpec (stOpt : ConditionOption) (target : String) : Prop :=
  ∀ c : Condition,
    (stOpt c).1.ctype = c.ctype ∧
    (stOpt c).1.status = target ∧
    (stOpt c).1.reason = c.reason ∧
    (stOpt c).1.message = c.message ∧
    (stOpt c).1.observedGeneration = c.observedGeneration ∧
    (c.status ≠ target → (stOpt c).2 = true)

/-- The condition list a Provider carries once a pass has fully
succeeded: exactly the three conditions the reconciler writes, already
observed at the current generation. -/
def steadyProviderConditions (p : Provider) (t1 t2 t3 : Nat) : List Condition :=
  [{ ctype := SecretConditionType, status := conditionTrue, reason := SecretFound
     message := "Secret " ++ p.spec.secretName ++ " found"
     observedGeneration := p.generation, lastTransitionTime := t1 },
   { ctype := ConfigMapConditionType, status := conditionTrue, reason := ConfigMapFound
     message := "ConfigMap " ++ p.spec.configMap ++ " found"
     observedGeneration := p.generation, lastTransitionTime := t2 },
   { ctype := ClientConditionType, status := conditionTrue, reason := ClientCreated
     message := "Client created"
     observedGeneration := p.generation, lastTransitionTime := t3 }]

/-! ## Concrete fixtures used by the witness theorems -/

def wProv : Provider :=
  { name := "test-provider", namespace_ := "default", generation := 3
    spec := { name := "Cloudflare", secretName := "cloudflare-secret"
              configMap := "cloudflare-config", retryInterval := 900 } }

def wProvEnvOk : ProviderEnv :=
  { now := 11
    getPublicIp := Except.ok "1.2.3.4"
    secretGet := Except.ok ()
    configMapGet := Except.ok ()
    createClient := Except.ok ()
    clientGetIp := Except.ok "5.6.7.8"
    clientSetIp := fun _ => Except.ok ()
    statusPatch := fun _ => Except.ok () }

def wProvSteady : Provider :=
  { wProv with status :=
      { providerIP := "1.2.3.4", publicIP := "1.2.3.4", observedGeneration := 3
        conditions := steadyProviderConditions wProv 1 1 1 } }

def wProvEnvSteady : ProviderEnv :=
  { wProvEnvOk with clientGetIp := Except.ok "1.2.3.4" }

def wProvEnvSecretMissing : ProviderEnv :=
  { wProvEnvOk with
      secretGet := Except.error "secrets \"cloudflare-secret\" not found" }

def wProvState : ProvState :=
  { provider := wProv, persistedStatus := wProv.status }

def wNotif : Notifier :=
  { name := "test-notifier", namespace_ := "default", generation := 2
    spec := { name := "Webhook", secretName := "webhook-secret"
              configMap := "webhook-config" } }

def wNotifReady : Notifier :=
  { wNotif with status := { wNotif.status with isReady := true } }

def wNotifEnvOk : NotifierEnv :=
  { now := 13
    configMapGet := Except.ok ()
    secretGet := Except.ok ()
    factory := Except.ok ()
    sendGreetings := Except.ok ()
    sendNotification := fun _ => Except.ok ()
    listProviders := Except.ok []
    statusPatch := fun _ => Except.ok ()
    providerPatch := fun _ => Except.ok () }

def wNotifEnvGreetFail : NotifierEnv :=
  { wNotifEnvOk with sendGreetings := Except.error "error sending greetings" }

def wNotifEnvSecretMissing : NotifierEnv :=
  { wNotifEnvOk with
      secretGet := Except.error "secrets \"webhook-secret\" not found" }

def wRefProv : Provider :=
  { name := "test-provider", namespace_ := "default", generation := 1
    spec := { name := "Cloudflare", secretName := "cloudflare-secret"
              configMap := "cloudflare-config"
              notifierRefs := [{ name := "test-notifier", namespace_ := "default" }] }
    status := { providerIP := "1.2.3.4", publicIP := "1.2.3.4" } }

def wRefProvSkip : Provider :=
  { wRefProv with
      annotations := [("ddns.stefangenov.site/test-notifier_default", "1.2.3.4")] }

def wNotifEnvProv : NotifierEnv :=
  { wNotifEnvOk with listProviders := Except.ok [wRefProv] }

def wNotifEnvSendFail : NotifierEnv :=
  { wNotifEnvProv with sendNotification := fun _ => Except.error "error sending notification" }

def wNotifState : NotifState :=
  { notifier := wNotifReady, persistedStatus := wNotifReady.status }

/-! ## Infrastructure lemmas about the condition ledger -/

theorem updateFirst_of_find?_none {α : Type} {p : α → Bool} {f : α → α × Bool}
    {l : List α} (h : l.find? p = none) : updateFirst p f l = (l, false) := by
  induction l with
  | nil => rfl
  | cons x xs ih =>
    by_cases hx : p x
    · rw [List.find?_cons_of_pos _ hx] at h
      exact absurd h (by simp)
    · rw [List.find?_cons_of_neg _ hx] at h
      simp [updateFirst, hx, ih h]

theorem updateFirst_find?_of_some {α : Type} {p : α → Bool} {f : α → α × Bool}
    {l : List α} {c : α}
    (hpres : ∀ a, p a = true → p (f a).1 = true)
    (h : l.find? p = some c) :
    (updateFirst p f l).1.find? p = some (f c).1 ∧ (updateFirst p f l).2 = (f c).2 := by
  induction l with
  | nil => simp [List.find?] at h
  | cons x xs ih =>
    by_cases hx : p x
    · rw [List.find?_cons_of_pos _ hx] at h
      injection h with h
      subst h
      constructor
      · simp only [updateFirst, if_pos hx]
        exact List.find?_cons_of_pos _ (hpres x hx)
      · simp [updateFirst, if_pos hx]
    · rw [List.find?_cons_of_neg _ hx] at h
      have hr := ih h
      constructor
      · simp only [updateFirst, if_neg hx]
        rw [List.find?_cons_of_neg _ hx]
        exact hr.1
      · simp only [updateFirst, if_neg hx]
        exact hr.2

theorem getCondition_of_find?_none {conds : List Condition} {ctype : String}
    (h : conds.find? (fun c => c.ctype == ctype) = none) :
    getCondition conds ctype = none := h

/-- Fields of `applyOptions` for the reason/message/status/generation
option list every `PatchConditions` call site uses. -/
theorem applyOptions_fields (rsn msg : String) (stOpt : ConditionOption)
    (target : String) (hst : statusOptionSpec stOpt target) (g : Int) (c : Condition) :
    ((applyOptions [withReasonAndMessage rsn msg, stOpt, withObservedGeneration g] c).1.ctype
        = c.ctype) ∧
    ((applyOptions [withReasonAndMessage rsn msg, stOpt, withObservedGeneration g] c).1.status
        = target) ∧
    ((applyOptions [withReasonAndMessage rsn msg, stOpt, withObservedGeneration g] c).1.reason
        = rsn) ∧
    ((applyOptions [withReasonAndMessage rsn msg, stOpt, withObservedGeneration g] c).1.message
        = msg) ∧
    ((applyOptions [withReasonAndMessage rsn msg, stOpt,
        withObservedGeneration g] c).1.observedGeneration = g) := by
  have h1 : ∀ d : Condition,
      ((withReasonAndMessage rsn msg d).1.ctype = d.ctype) ∧
      ((withReasonAndMessage rsn msg d).1.status = d.status) ∧
      ((withReasonAndMessage rsn msg d).1.reason = rsn) ∧
      ((withReasonAndMessage rsn msg d).1.message = msg) ∧
      ((withReasonAndMessage rsn msg d).1.observedGeneration = d.observedGeneration) ∧
      ((withReasonAndMessage rsn msg d).1.lastTransitionTime = d.lastTransitionTime) := by
    intro d
    simp only [withReasonAndMessage, withReason, withMessage]
    split_ifs <;> simp_all
  have h2 : ∀ d : Condition,
      ((withObservedGeneration g d).1.ctype = d.ctype) ∧
      ((withObservedGeneration g d).1.status = d.status) ∧
      ((withObservedGeneration g d).1.reason = d.reason) ∧
      ((withObservedGeneration g d).1.message = d.message) ∧
      ((withObservedGeneration g d).1.observedGeneration = g) ∧
      ((withObservedGeneration g d).1.lastTransitionTime = d.lastTransitionTime) := by
    intro d
    simp only [withObservedGeneration]
    split_ifs <;> simp_all
  simp only [applyOptions, List.foldl]
  obtain ⟨a1, a2, a3, a4, a5, a6⟩ := h1 c
  obtain ⟨b1, b2, b3, b4, b5, b6⟩ := hst (withReasonAndMessage rsn msg c).1
  obtain ⟨d1, d2, d3, d4, d5, d6⟩ := h2 (stOpt (withReasonAndMessage rsn msg c).1).1
  refine ⟨?_, ?_, ?_, ?_, ?_⟩ <;> simp_all

theorem statusOptionSpec_true : statusOptionSpec optionTrue conditionTrue := by
  intro c
  simp only [optionTrue]
  split_ifs <;> simp_all

theorem statusOptionSpec_false : statusOptionSpec optionFalse conditionFalse := by
  intro c
  simp only [optionFalse]
  split_ifs <;> simp_all

/-- After `SetCondition` with a reason/message/status option list, the
condition of that type exists and carries exactly the requested fields. -/
theorem getCondition_setCondition_self (now : Nat) (conds : List Condition)
    (ct rsn msg : String) (stOpt : ConditionOption) (target : String)
    (hst : statusOptionSpec stOpt target) (g : Int) :
    ∃ c, getCondition (setCondition now conds ct
        [withReasonAndMessage rsn msg, stOpt, withObservedGeneration g]).1 ct = some c ∧
      c.status = target ∧ c.reason = rsn ∧ c.message = msg ∧ c.observedGeneration = g := by
  set opts : List ConditionOption :=
    [withReasonAndMessage rsn msg, stOpt, withObservedGeneration g] with hopts
  set p : Condition → Bool := fun c => c.ctype == ct with hp
  have hpres : ∀ a : Condition, p a = true → p (applyOptions opts a).1 = true := by
    intro a ha
    have hc := (applyOptions_fields rsn msg stOpt target hst g a).1
    simp only [hp, hopts] at *
    rw [hc]
    exact ha
  have hfields : ∀ a : Condition,
      (applyOptions opts a).1.status = target ∧ (applyOptions opts a).1.reason = rsn ∧
      (applyOptions opts a).1.message = msg ∧
      (applyOptions opts a).1.observedGeneration = g := by
    intro a
    obtain ⟨_, h2, h3, h4, h5⟩ := applyOptions_fields rsn msg stOpt target hst g a
    exact ⟨h2, h3, h4, h5⟩
  have stamped : ∀ (L : List Condition) (A : Condition), L.find? p = some A →
      ∃ c, (updateFirst p (fun c => ({ c with lastTransitionTime := now }, true)) L).1.find? p
          = some c ∧
        c.status = A.status ∧ c.reason = A.reason ∧ c.message = A.message ∧
        c.observedGeneration = A.observedGeneration := by
    intro L A hL
    have := updateFirst_find?_of_some (f := fun c => ({ c with lastTransitionTime := now }, true))
      (fun a ha => ha) hL
    exact ⟨_, this.1, rfl, rfl, rfl, rfl⟩
  have main : ∀ (L : List Condition) (c0 : Condition), L.find? p = some c0 → (b : Bool) →
      ∃ c, (setConditionCore now L p opts b).1.find? p = some c ∧
        c.status = target ∧ c.reason = rsn ∧ c.message = msg ∧ c.observedGeneration = g := by
    intro L c0 hL b
    have h1 := updateFirst_find?_of_some hpres hL
    by_cases hch : (b || (updateFirst p (applyOptions opts) L).2) = true
    · simp only [setConditionCore, hch, if_true]
      obtain ⟨c, hc, hs, hr, hm, ho⟩ := stamped _ _ h1.1
      obtain ⟨f1, f2, f3, f4⟩ := hfields c0
      exact ⟨c, hc, by rw [hs, f1], by rw [hr, f2], by rw [hm, f3], by rw [ho, f4]⟩
    · simp only [setConditionCore, hch, if_false]
      obtain ⟨f1, f2, f3, f4⟩ := hfields c0
      exact ⟨_, h1.1, f1, f2, f3, f4⟩
  cases hfind : getCondition conds ct with
  | some c0 =>
    have hcore : setCondition now conds ct opts = setConditionCore now conds p opts false := by
      simp only [setCondition, setConditionCore, hfind, hp, hopts]
    rw [hcore]
    exact main conds c0 (by rw [hp]; exact hfind) false
  | none =>
    have happ : (addUnknownCondition now conds ct).1 =
        conds ++ [{ ctype := ct, status := conditionUnknown, reason := "Unknown"
                    message := "Unknown", observedGeneration := 0
                    lastTransitionTime := now }] := by
      simp only [addUnknownCondition, SetStatusCondition, hfind]
      rfl
    have hfind2 : List.find? p conds = none := by
      rw [hp]
      exact hfind
    have hfl : (addUnknownCondition now conds ct).1.find? p =
        some { ctype := ct, status := conditionUnknown, reason := "Unknown"
               message := "Unknown", observedGeneration := 0, lastTransitionTime := now } := by
      rw [happ, List.find?_append, hfind2]
      simp [hp]
    have hcore : setCondition now conds ct opts =
        setConditionCore now (addUnknownCondition now conds ct).1 p opts true := by
      simp only [setCondition, setConditionCore, hfind, hp, hopts]
      have : (addUnknownCondition now conds ct).2 = true := by
        simp only [addUnknownCondition, SetStatusCondition, hfind]
      rw [this]
    rw [hcore]
    exact main _ _ hfl true

/-- Field behaviour of `WithReasonAndMessage`. -/
theorem withReasonAndMessage_fields (rsn msg : String) (d : Condition) :
    ((withReasonAndMessage rsn msg d).1.ctype = d.ctype) ∧
    ((withReasonAndMessage rsn msg d).1.status = d.status) ∧
    ((withReasonAndMessage rsn msg d).1.reason = rsn) ∧
    ((withReasonAndMessage rsn msg d).1.message = msg) ∧
    ((withReasonAndMessage rsn msg d).1.observedGeneration = d.observedGeneration) ∧
    (d.reason ≠ rsn → (withReasonAndMessage rsn msg d).2 = true) := by
  simp only [withReasonAndMessage, withReason, withMessage]
  split_ifs <;> simp_all

/-- The change flag of the standard option list is set whenever the found
condition's status or reason differs from the requested one. -/
theorem applyOptions_changed_of_ne (rsn msg : String) (stOpt : ConditionOption)
    (target : String) (hst : statusOptionSpec stOpt target) (g : Int) (c0 : Condition)
    (h : c0.status ≠ target ∨ c0.reason ≠ rsn) :
    (applyOptions [withReasonAndMessage rsn msg, stOpt, withObservedGeneration g] c0).2
      = true := by
  simp only [applyOptions, List.foldl]
  cases h with
  | inr hr =>
    have hw := (withReasonAndMessage_fields rsn msg c0).2.2.2.2.2 hr
    simp [hw]
  | inl hs =>
    have hkeep := (withReasonAndMessage_fields rsn msg c0).2.1
    have hw := (hst (withReasonAndMessage rsn msg c0).1).2.2.2.2.2 (by rw [hkeep]; exact hs)
    simp [hw]

/-- `SetCondition` reports a change whenever the condition was absent or
its stored status or reason differed. -/
theorem setCondition_changed_of_ne (now : Nat) (conds : List Condition)
    (ct rsn msg : String) (stOpt : ConditionOption) (target : String)
    (hst : statusOptionSpec stOpt target) (g : Int)
    (h : ∀ c0, getCondition conds ct = some c0 → (c0.status ≠ target ∨ c0.reason ≠ rsn)) :
    (setCondition now conds ct
      [withReasonAndMessage rsn msg, stOpt, withObservedGeneration g]).2 = true := by
  cases hfind : getCondition conds ct with
  | none =>
    have hadd : (addUnknownCondition now conds ct).2 = true := by
      simp only [addUnknownCondition, SetStatusCondition, hfind]
    simp only [setCondition, hfind, hadd, Bool.true_or, if_true]
  | some c0 =>
    have hpres : ∀ a : Condition, ((a.ctype == ct) = true) →
        (((applyOptions [withReasonAndMessage rsn msg, stOpt,
            withObservedGeneration g] a).1.ctype == ct) = true) := by
      intro a ha
      have hc := (applyOptions_fields rsn msg stOpt target hst g a).1
      rw [hc]
      exact ha
    have h2 := (updateFirst_find?_of_some hpres hfind).2
    have h3 := applyOptions_changed_of_ne rsn msg stOpt target hst g c0 (h c0 hfind)
    rw [h3] at h2
    simp only [setCondition, hfind, h2, Bool.or_true, if_true]

/-- Fields of the in-place updater of `meta.SetStatusCondition`. -/
theorem setStatusUpdater_fields (now : Nat) (newC ex : Condition) :
    ((setStatusUpdater now newC ex).1.ctype = ex.ctype) ∧
    ((setStatusUpdater now newC ex).1.status = newC.status) ∧
    ((setStatusUpdater now newC ex).1.reason = newC.reason) ∧
    ((setStatusUpdater now newC ex).1.message = newC.message) ∧
    ((setStatusUpdater now newC ex).1.observedGeneration = newC.observedGeneration) := by
  simp only [setStatusUpdater]
  split_ifs <;> simp_all

/-- After `meta.SetStatusCondition`, the condition of the new condition's
type exists and carries its status, reason, message and generation. -/
theorem getCondition_SetStatusCondition_self (now : Nat) (conds : List Condition)
    (newC : Condition) :
    ∃ c, getCondition (SetStatusCondition now conds newC).1 newC.ctype = some c ∧
      c.status = newC.status ∧ c.reason = newC.reason ∧ c.message = newC.message ∧
      c.observedGeneration = newC.observedGeneration := by
  cases hfind : getCondition conds newC.ctype with
  | none =>
    have hgoal : getCondition (SetStatusCondition now conds newC).1 newC.ctype =
        some { newC with lastTransitionTime :=
          if newC.lastTransitionTime = 0 then now else newC.lastTransitionTime } := by
      simp only [SetStatusCondition, hfind]
      show (conds ++ [_]).find? (fun c : Condition => c.ctype == newC.ctype) = _
      rw [List.find?_append]
      have hfind2 : List.find? (fun c => c.ctype == newC.ctype) conds = none := hfind
      rw [hfind2]
      simp
    exact ⟨_, hgoal, rfl, rfl, rfl, rfl⟩
  | some c0 =>
    simp only [SetStatusCondition, hfind]
    have hpres : ∀ a : Condition, ((a.ctype == newC.ctype) = true) →
        (((setStatusUpdater now newC a).1.ctype == newC.ctype) = true) := by
      intro a ha
      rw [(setStatusUpdater_fields now newC a).1]
      exact ha
    have h1 := (updateFirst_find?_of_some hpres hfind).1
    obtain ⟨_, h2, h3, h4, h5⟩ := setStatusUpdater_fields now newC c0
    exact ⟨_, h1, h2, h3, h4, h5⟩

/-! ## Frame lemmas for the Provider reconciler -/

theorem provFrame_refl (s : ProvState) : provFrame s s := by
  unfold provFrame
  exact ⟨rfl, rfl, rfl, rfl, rfl, rfl, rfl, rfl, rfl, rfl, rfl, rfl⟩

theorem provFrame_trans {s1 s2 s3 : ProvState} (h1 : provFrame s1 s2)
    (h2 : provFrame s2 s3) : provFrame s1 s3 := by
  unfold provFrame at *
  obtain ⟨a1, a2, a3, a4, a5, a6, a7, a8, a9, a10, a11, a12⟩ := h1
  obtain ⟨b1, b2, b3, b4, b5, b6, b7, b8, b9, b10, b11, b12⟩ := h2
  exact ⟨b1.trans a1, b2.trans a2, b3.trans a3, b4.trans a4, b5.trans a5, b6.trans a6,
    b7.trans a7, b8.trans a8, b9.trans a9, b10.trans a10, b11.trans a11, b12.trans a12⟩

/-- `UpdateConditions` only rewrites the condition list: every other
observable is untouched, whatever the patch outcome. -/
theorem UpdateConditions_frame (env : ProviderEnv) (s : ProvState) (condition : Condition) :
    provFrame s (UpdateConditions env s condition).1 := by
  unfold provFrame UpdateConditions PatchStatus
  dsimp only
  split_ifs with h
  · cases hp : env.statusPatch s.patchCount <;>
      simp [mergeProviderStatus]
  · simp

theorem FetchSecret_frame (env : ProviderEnv) (s : ProvState) :
    provFrame s (FetchSecret env s).1 := by
  cases h : env.secretGet with
  | error e =>
    simp only [FetchSecret, h]
    exact UpdateConditions_frame env s _
  | ok u =>
    simp only [FetchSecret, h]
    exact UpdateConditions_frame env s _

theorem FetchConfig_frame (env : ProviderEnv) (s : ProvState) :
    provFrame s (FetchConfig env s).1 := by
  cases h : env.configMapGet with
  | error e =>
    simp only [FetchConfig, h]
    exact UpdateConditions_frame env s _
  | ok u =>
    simp only [FetchConfig, h]
    exact UpdateConditions_frame env s _

theorem FetchClient_frame (env : ProviderEnv) (s : ProvState) :
    provFrame s (FetchClient env s).1 := by
  unfold FetchClient
  simp only [FetchSecret]
  cases hc : env.configMapGet with
  | error e =>
    simp only [FetchConfig, hc]
    exact provFrame_trans (UpdateConditions_frame env s _) (UpdateConditions_frame _ _ _)
  | ok u =>
    simp only [FetchConfig, hc]
    cases hcc : env.createClient with
    | error e =>
      exact provFrame_trans
        (provFrame_trans (UpdateConditions_frame env s _) (UpdateConditions_frame _ _ _))
        (UpdateConditions_frame _ _ _)
    | ok u2 =>
      exact provFrame_trans
        (provFrame_trans (UpdateConditions_frame env s _) (UpdateConditions_frame _ _ _))
        (UpdateConditions_frame _ _ _)

/-- `FetchClient` succeeds whenever the ConfigMap Get and the client
construction succeed (a missing Secret alone cannot fail it). -/
theorem FetchClient_result (env : ProviderEnv) (s : ProvState)
    (hcfg : env.configMapGet = Except.ok ())
    (hcc : env.createClient = Except.ok ()) :
    (FetchClient env s).2 = Except.ok () := by
  simp only [FetchClient, FetchSecret, FetchConfig, hcfg, hcc]

/-- Effect of the observed-generation patch step when status patches
succeed: everything except the observed generation is preserved. -/
theorem og_step (env : ProviderEnv) (s : ProvState)
    (hpatch : ∀ n, env.statusPatch n = Except.ok ()) :
    ((PatchStatus env s updateObservedGeneration).2 = Except.ok ()) ∧
    ((PatchStatus env s updateObservedGeneration).1.provider.status.providerIP
      = s.provider.status.providerIP) ∧
    ((PatchStatus env s updateObservedGeneration).1.provider.status.publicIP
      = s.provider.status.publicIP) ∧
    ((PatchStatus env s updateObservedGeneration).1.provider.spec = s.provider.spec) ∧
    ((PatchStatus env s updateObservedGeneration).1.provider.generation
      = s.provider.generation) ∧
    ((PatchStatus env s updateObservedGeneration).1.persistedStatus.providerIP
      = s.persistedStatus.providerIP) ∧
    ((PatchStatus env s updateObservedGeneration).1.setIpCalls = s.setIpCalls) := by
  unfold PatchStatus updateObservedGeneration
  by_cases h : s.provider.status.observedGeneration = s.provider.generation
  · simp [h]
  · simp only [if_neg h]
    rw [hpatch s.patchCount]
    simp [mergeProviderStatus, h]

/-- Effect of the `status.publicIP` patch step when status patches
succeed. -/
theorem publicIp_step (env : ProviderEnv) (s : ProvState) (ip : String)
    (hpatch : ∀ n, env.statusPatch n = Except.ok ()) :
    ((PatchStatus env s (updatePublicIp ip)).2 = Except.ok ()) ∧
    ((PatchStatus env s (updatePublicIp ip)).1.provider.status.publicIP = ip) ∧
    ((PatchStatus env s (updatePublicIp ip)).1.provider.status.providerIP
      = s.provider.status.providerIP) ∧
    ((PatchStatus env s (updatePublicIp ip)).1.provider.status.observedGeneration
      = s.provider.status.observedGeneration) ∧
    ((PatchStatus env s (updatePublicIp ip)).1.provider.status.conditions
      = s.provider.status.conditions) ∧
    ((PatchStatus env s (updatePublicIp ip)).1.provider.spec = s.provider.spec) ∧
    ((PatchStatus env s (updatePublicIp ip)).1.provider.generation
      = s.provider.generation) ∧
    ((PatchStatus env s (updatePublicIp ip)).1.persistedStatus.providerIP
      = s.persistedStatus.providerIP) ∧
    ((PatchStatus env s (updatePublicIp ip)).1.persistedStatus.observedGeneration
      = s.persistedStatus.observedGeneration) ∧
    ((PatchStatus env s (updatePublicIp ip)).1.setIpCalls = s.setIpCalls) := by
  unfold PatchStatus updatePublicIp
  by_cases h : s.provider.status.publicIP = ip
  · simp [h]
  · simp only [if_neg h]
    rw [hpatch s.patchCount]
    simp [mergeProviderStatus, h]

/-- Effect of a `status.providerIP` patch step when status patches
succeed. -/
theorem providerIp_step (env : ProviderEnv) (s : ProvState) (ip : String)
    (hpatch : ∀ n, env.statusPatch n = Except.ok ()) :
    ((PatchStatus env s (updateProviderIp ip)).2 = Except.ok ()) ∧
    ((PatchStatus env s (updateProviderIp ip)).1.provider.status.providerIP = ip) ∧
    ((PatchStatus env s (updateProviderIp ip)).1.provider.status.publicIP
      = s.provider.status.publicIP) ∧
    ((PatchStatus env s (updateProviderIp ip)).1.provider.status.observedGeneration
      = s.provider.status.observedGeneration) ∧
    ((PatchStatus env s (updateProviderIp ip)).1.provider.spec = s.provider.spec) ∧
    ((PatchStatus env s (updateProviderIp ip)).1.provider.generation
      = s.provider.generation) ∧
    ((PatchStatus env s (updateProviderIp ip)).1.persistedStatus.providerIP
      = (if s.provider.status.providerIP = ip then s.persistedStatus.providerIP else ip)) ∧
    ((PatchStatus env s (updateProviderIp ip)).1.persistedStatus.observedGeneration
      = s.persistedStatus.observedGeneration) ∧
    ((PatchStatus env s (updateProviderIp ip)).1.setIpCalls = s.setIpCalls) := by
  unfold PatchStatus updateProviderIp
  by_cases h : s.provider.status.providerIP = ip
  · simp [h]
  · simp only [if_neg h]
    rw [hpatch s.patchCount]
    simp [mergeProviderStatus, h]

/-- Whatever mutation and patch outcome, a `PatchStatus` whose mutation
preserves `status.observedGeneration` leaves the persisted and in-memory
observed generations and the generation untouched. -/
theorem PatchStatus_og (env : ProviderEnv) (s : ProvState)
    (apply : Provider → Provider × Bool)
    (hog : ∀ p, ((apply p).1).status.observedGeneration = p.status.observedGeneration)
    (hgen : ∀ p, ((apply p).1).generation = p.generation) :
    ((PatchStatus env s apply).1.persistedStatus.observedGeneration
      = s.persistedStatus.observedGeneration) ∧
    ((PatchStatus env s apply).1.provider.status.observedGeneration
      = s.provider.status.observedGeneration) ∧
    ((PatchStatus env s apply).1.provider.generation = s.provider.generation) := by
  unfold PatchStatus
  dsimp only
  by_cases h : (apply s.provider).2 = true
  · simp only [if_pos h]
    cases hp : env.statusPatch s.patchCount <;>
      simp [mergeProviderStatus, hog s.provider, hgen s.provider]
  · simp only [if_neg h]
    simp [hog s.provider, hgen s.provider]

/-! ## Claim theorems -/

/-- C1: in a Provider reconcile pass where the discovered public IP and
the provider-reported IP differ and `SetIp` succeeds, `Client.SetIp` is
called with the public IP exactly once and at the end of the pass
`status.providerIP` (in memory and persisted) equals the public IP; if
`SetIp` fails, the pass aborts with that error and the persisted
`status.providerIP` still holds the provider-reported value. -/
theorem provider_desync_setIp_exactly_once (env : ProviderEnv) (p0 : Provider)
    (pub provIp : String)
    (hpub : env.getPublicIp = Except.ok pub)
    (hget : env.clientGetIp = Except.ok provIp)
    (hdiff : pub ≠ provIp)
    (hcfg : env.configMapGet = Except.ok ())
    (hcc : env.createClient = Except.ok ())
    (hpatch : ∀ n, env.statusPatch n = Except.ok ()) :
    (env.clientSetIp pub = Except.ok () →
      (ProviderReconcile env p0).1.setIpCalls = [pub] ∧
      (ProviderReconcile env p0).1.provider.status.providerIP = pub ∧
      (ProviderReconcile env p0).1.persistedStatus.providerIP = pub ∧
      (ProviderReconcile env p0).2 =
        Except.ok { requeue := true, requeueAfterSeconds := p0.spec.retryInterval }) ∧
    (∀ e, env.clientSetIp pub = Except.error e →
      (ProviderReconcile env p0).2 = Except.error e ∧
      (ProviderReconcile env p0).1.setIpCalls = [pub] ∧
      (ProviderReconcile env p0).1.persistedStatus.providerIP = provIp) := by
  have HPU := fun s => publicIp_step env s pub hpatch
  have HPI := fun s ip => providerIp_step env s ip hpatch
  have HOG := fun s => og_step env s hpatch
  have HFC := fun s => FetchClient_frame env s
  have eFC := fun s => FetchClient_result env s hcfg hcc
  simp only [provFrame] at HFC
  constructor
  · intro hset
    refine ⟨?_, ?_, ?_, ?_⟩ <;>
      simp [ProviderReconcile, hpub, HPU, eFC, HFC, hget, HPI, HOG, hset,
        hdiff, Ne.symm hdiff]
  · intro e hset
    refine ⟨?_, ?_, ?_⟩ <;>
      simp [ProviderReconcile, hpub, HPU, eFC, HFC, hget, HPI, HOG, hset,
        hdiff, Ne.symm hdiff]

/-- A failing status patch leaves the server-side status untouched. -/
theorem PatchStatus_persisted_of_error (env : ProviderEnv) (s : ProvState)
    (apply : Provider → Provider × Bool) (e : String)
    (he : (PatchStatus env s apply).2 = Except.error e) :
    (PatchStatus env s apply).1.persistedStatus = s.persistedStatus := by
  unfold PatchStatus at he ⊢
  by_cases h : (apply s.provider).2 = true
  · simp only [if_pos h] at he ⊢
    revert he
    cases hp : env.statusPatch s.patchCount with
    | ok u => intro he; simp at he
    | error e2 => intro he; rfl
  · simp only [if_neg h] at he
    simp at he

/-- A successful observed-generation patch step lands the persisted and
in-memory observed generations on the resource generation, provided they
agreed beforehand. -/
theorem og_patch_ok (env : ProviderEnv) (s : ProvState)
    (hok : (PatchStatus env s updateObservedGeneration).2 = Except.ok ())
    (hpers : s.persistedStatus.observedGeneration = s.provider.status.observedGeneration) :
    (PatchStatus env s updateObservedGeneration).1.persistedStatus.observedGeneration
      = s.provider.generation ∧
    (PatchStatus env s updateObservedGeneration).1.provider.status.observedGeneration
      = s.provider.generation := by
  unfold PatchStatus updateObservedGeneration at hok ⊢
  by_cases h : s.provider.status.observedGeneration = s.provider.generation
  · simp only [if_pos h] at hok ⊢
    simp [h, hpers]
  · simp only [if_neg h] at hok ⊢
    revert hok
    cases hp : env.statusPatch s.patchCount with
    | ok u => intro hok; simp [mergeProviderStatus, h]
    | error e2 => intro hok; simp at hok

/-- C4: in a Provider reconcile pass, `status.observedGeneration` is
advanced to `metadata.generation` only after all preceding steps have
succeeded: a fully successful pass ends with the persisted and in-memory
observed generations equal to the generation, and a pass that aborts at
any earlier step leaves the persisted observed generation unchanged. -/
theorem provider_observedGeneration_gate (env : ProviderEnv) (p0 : Provider) :
    (∀ r, (ProviderReconcile env p0).2 = Except.ok r →
      (ProviderReconcile env p0).1.persistedStatus.observedGeneration = p0.generation ∧
      (ProviderReconcile env p0).1.provider.status.observedGeneration = p0.generation) ∧
    (∀ e, (ProviderReconcile env p0).2 = Except.error e →
      (ProviderReconcile env p0).1.persistedStatus.observedGeneration
        = p0.status.observedGeneration) := by
  have hogPU : ∀ (ip : String) (p : Provider),
      ((updatePublicIp ip p).1).status.observedGeneration = p.status.observedGeneration ∧
      ((updatePublicIp ip p).1).generation = p.generation := by
    intro ip p
    unfold updatePublicIp
    split_ifs <;> exact ⟨rfl, rfl⟩
  have hogPI : ∀ (ip : String) (p : Provider),
      ((updateProviderIp ip p).1).status.observedGeneration = p.status.observedGeneration ∧
      ((updateProviderIp ip p).1).generation = p.generation := by
    intro ip p
    unfold updateProviderIp
    split_ifs <;> exact ⟨rfl, rfl⟩
  have OPU := fun (s : ProvState) (ip : String) =>
    PatchStatus_og env s (updatePublicIp ip) (fun p => (hogPU ip p).1) (fun p => (hogPU ip p).2)
  have OPI := fun (s : ProvState) (ip : String) =>
    PatchStatus_og env s (updateProviderIp ip) (fun p => (hogPI ip p).1) (fun p => (hogPI ip p).2)
  have HFC := fun s => FetchClient_frame env s
  simp only [provFrame] at HFC
  cases hx : env.getPublicIp with
  | error e0 =>
    constructor
    · intro r hr
      simp [ProviderReconcile, hx] at hr
    · intro e he
      simp [ProviderReconcile, hx]
  | ok pub =>
    simp only [ProviderReconcile, hx]
    set E1 := PatchStatus env ({ provider := p0, persistedStatus := p0.status } : ProvState)
      (updatePublicIp pub) with hE1
    cases h1 : E1.2 with
    | error e1 =>
      simp only [h1]
      constructor
      · intro r hr
        simp at hr
      · intro e he
        simp only [hE1, OPU]
    | ok u1 =>
      simp only [h1]
      set E2 := FetchClient env E1.1 with hE2
      cases h2 : E2.2 with
      | error e2 =>
        simp only [h2]
        constructor
        · intro r hr
          simp at hr
        · intro e he
          simp only [hE2, hE1, HFC, OPU]
      | ok u2 =>
        simp only [h2]
        cases hg : env.clientGetIp with
        | error e3 =>
          simp only [hg]
          constructor
          · intro r hr
            simp at hr
          · intro e he
            simp only [hE2, hE1, HFC, OPU]
        | ok provIp =>
          simp only [hg]
          set E3 := PatchStatus env E2.1 (updateProviderIp provIp) with hE3
          cases h3 : E3.2 with
          | error e4 =>
            simp only [h3]
            constructor
            · intro r hr
              simp at hr
            · intro e he
              simp only [hE3, hE2, hE1, OPI, HFC, OPU]
          | ok u3 =>
            simp only [h3]
            have hpers3 : E3.1.persistedStatus.observedGeneration
                = E3.1.provider.status.observedGeneration := by
              simp only [hE3, hE2, hE1, OPI, HFC, OPU]
            have hchain3og : E3.1.persistedStatus.observedGeneration
                = p0.status.observedGeneration := by
              simp only [hE3, hE2, hE1, OPI, HFC, OPU]
            have hchain3gen : E3.1.provider.generation = p0.generation := by
              simp only [hE3, hE2, hE1, OPI, HFC, OPU]
            by_cases hd : E3.1.provider.status.publicIP = E3.1.provider.status.providerIP
            · simp only [hd, ne_eq, not_true_eq_false, if_false]
              set E5 := PatchStatus env E3.1 updateObservedGeneration with hE5
              cases h5 : E5.2 with
              | error e5 =>
                simp only [h5]
                constructor
                · intro r hr
                  simp at hr
                · intro e he
                  rw [hE5, PatchStatus_persisted_of_error env E3.1 _ e5 (by rw [← hE5]; exact h5)]
                  exact hchain3og
              | ok u5 =>
                simp only [h5]
                have hfin := og_patch_ok env E3.1 (by rw [← hE5]; exact h5) hpers3
                constructor
                · intro r hr
                  rw [← hE5] at hfin
                  exact ⟨hfin.1.trans hchain3gen, hfin.2.trans hchain3gen⟩
                · intro e he
                  simp at he
            · simp only [hd, ne_eq, not_false_eq_true, if_true]
              cases hs : env.clientSetIp E3.1.provider.status.publicIP with
              | error e6 =>
                simp only [hs]
                constructor
                · intro r hr
                  simp at hr
                · intro e he
                  exact hchain3og
              | ok u6 =>
                simp only [hs]
                set S3' : ProvState := { E3.1 with
                  setIpCalls := E3.1.setIpCalls ++ [E3.1.provider.status.publicIP] } with hS3
                set E4 := PatchStatus env S3'
                  (updateProviderIp S3'.provider.status.publicIP) with hE4
                cases h4 : E4.2 with
                | error e7 =>
                  simp only [h4]
                  constructor
                  · intro r hr
                    simp at hr
                  · intro e he
                    have : E4.1.persistedStatus.observedGeneration
                        = S3'.persistedStatus.observedGeneration := by
                      simp only [hE4, OPI]
                    rw [this]
                    exact hchain3og
                | ok u7 =>
                  simp only [h4]
                  have hpers4 : E4.1.persistedStatus.observedGeneration
                      = E4.1.provider.status.observedGeneration := by
                    simp only [hE4, OPI, hS3]
                    exact hpers3
                  have hchain4og : E4.1.persistedStatus.observedGeneration
                      = p0.status.observedGeneration := by
                    simp only [hE4, OPI, hS3]
                    exact hchain3og
                  have hchain4gen : E4.1.provider.generation = p0.generation := by
                    simp only [hE4, OPI, hS3]
                    exact hchain3gen
                  set E5 := PatchStatus env E4.1 updateObservedGeneration with hE5
                  cases h5 : E5.2 with
                  | error e5 =>
                    simp only [h5]
                    constructor
                    · intro r hr
                      simp at hr
                    · intro e he
                      rw [hE5, PatchStatus_persisted_of_error env E4.1 _ e5
                        (by rw [← hE5]; exact h5)]
                      exact hchain4og
                  | ok u5 =>
                    simp only [h5]
                    have hfin := og_patch_ok env E4.1 (by rw [← hE5]; exact h5) hpers4
                    constructor
                    · intro r hr
                      rw [← hE5] at hfin
                      exact ⟨hfin.1.trans hchain4gen, hfin.2.trans hchain4gen⟩
                    · intro e he
                      simp at he

/-- C3: the status patch engine performs its network call iff the
mutation reports a change (a no-op mutation performs zero network
writes and returns nil), a failing patch surfaces its error unchanged —
for the Provider and the Notifier engines alike — and consequently a
Provider reconcile in which no stored status value changes performs
zero status-patch calls. -/
theorem patch_engine_writes_iff_changed :
    (∀ (env : ProviderEnv) (s : ProvState) (apply : Provider → Provider × Bool),
      (PatchStatus env s apply).1.patchCount
        = s.patchCount + (if (apply s.provider).2 then 1 else 0)) ∧
    (∀ (env : ProviderEnv) (s : ProvState) (apply : Provider → Provider × Bool),
      (apply s.provider).2 = false → (PatchStatus env s apply).2 = Except.ok ()) ∧
    (∀ (env : ProviderEnv) (s : ProvState) (apply : Provider → Provider × Bool) (e : String),
      (apply s.provider).2 = true → env.statusPatch s.patchCount = Except.error e →
      (PatchStatus env s apply).2 = Except.error e) ∧
    (∀ (env : NotifierEnv) (s : NotifState) (apply : Notifier → Notifier × Bool),
      (notifPatchStatus env s apply).1.statusPatchCount
        = s.statusPatchCount + (if (apply s.notifier).2 then 1 else 0)) ∧
    (∀ (env : NotifierEnv) (s : NotifState) (apply : Notifier → Notifier × Bool) (e : String),
      (apply s.notifier).2 = true → env.statusPatch s.statusPatchCount = Except.error e →
      (notifPatchStatus env s apply).2 = Except.error e) ∧
    (∀ (env : ProviderEnv) (p0 : Provider) (pub : String) (t1 t2 t3 : Nat),
      env.getPublicIp = Except.ok pub →
      env.secretGet = Except.ok () →
      env.configMapGet = Except.ok () →
      env.createClient = Except.ok () →
      env.clientGetIp = Except.ok pub →
      p0.status.publicIP = pub →
      p0.status.providerIP = pub →
      p0.status.observedGeneration = p0.generation →
      p0.status.conditions = steadyProviderConditions p0 t1 t2 t3 →
      (ProviderReconcile env p0).1.patchCount = 0 ∧
      (ProviderReconcile env p0).2 = Except.ok
        { requeue := true, requeueAfterSeconds := p0.spec.retryInterval }) := by
  refine ⟨?_, ?_, ?_, ?_, ?_, ?_⟩
  · intro env s apply
    unfold PatchStatus
    by_cases h : (apply s.provider).2 = true
    · simp only [if_pos h, h]
      cases hp : env.statusPatch s.patchCount <;> simp
    · simp only [if_neg h]
      simp at h
      simp [h]
  · intro env s apply h
    unfold PatchStatus
    simp [h]
  · intro env s apply e h hp
    unfold PatchStatus
    simp [h, hp]
  · intro env s apply
    unfold notifPatchStatus
    by_cases h : (apply s.notifier).2 = true
    · simp only [if_pos h, h]
      cases hp : env.statusPatch s.statusPatchCount <;> simp
    · simp only [if_neg h]
      simp at h
      simp [h]
  · intro env s apply e h hp
    unfold notifPatchStatus
    simp [h, hp]
  · intro env p0 pub t1 t2 t3 hpub hsec hcfg hcc hget hipub hiprov hog hconds
    constructor <;>
      simp [ProviderReconcile, PatchStatus, updatePublicIp, updateProviderIp,
        updateObservedGeneration, FetchClient, FetchSecret, FetchConfig, UpdateConditions,
        SetStatusCondition, setStatusUpdater, getCondition, updateFirst,
        steadyProviderConditions, SecretConditionType, SecretFound, ConfigMapConditionType,
        ConfigMapFound, ClientConditionType, ClientCreated, conditionTrue, conditionFalse,
        hpub, hsec, hcfg, hcc, hget, hipub, hiprov, hog, hconds]

/-- Witness for C1 at a concrete desynced Provider. -/
theorem provider_desync_setIp_exactly_once_witness :
    (ProviderReconcile wProvEnvOk wProv).1.setIpCalls = ["1.2.3.4"] ∧
    (ProviderReconcile wProvEnvOk wProv).1.provider.status.providerIP = "1.2.3.4" ∧
    (ProviderReconcile wProvEnvOk wProv).1.persistedStatus.providerIP = "1.2.3.4" ∧
    (ProviderReconcile wProvEnvOk wProv).2 =
      Except.ok { requeue := true, requeueAfterSeconds := wProv.spec.retryInterval } :=
  (provider_desync_setIp_exactly_once wProvEnvOk wProv "1.2.3.4" "5.6.7.8" rfl rfl
    (by decide) rfl rfl (fun _ => rfl)).1 rfl

/-- Witness for C4 at a concrete successful pass. -/
theorem provider_observedGeneration_gate_witness :
    (ProviderReconcile wProvEnvOk wProv).1.persistedStatus.observedGeneration
      = wProv.generation ∧
    (ProviderReconcile wProvEnvOk wProv).1.provider.status.observedGeneration
      = wProv.generation :=
  (provider_observedGeneration_gate wProvEnvOk wProv).1
    { requeue := true, requeueAfterSeconds := 900 } rfl

/-- Witness for C3 at a concrete steady-state pass: zero patch calls. -/
theorem patch_engine_writes_iff_changed_witness :
    (ProviderReconcile wProvEnvSteady wProvSteady).1.patchCount = 0 ∧
    (ProviderReconcile wProvEnvSteady wProvSteady).2 = Except.ok
      { requeue := true, requeueAfterSeconds := wProvSteady.spec.retryInterval } :=
  patch_engine_writes_iff_changed.2.2.2.2.2 wProvEnvSteady wProvSteady "1.2.3.4" 1 1 1
    rfl rfl rfl rfl rfl rfl rfl rfl rfl

/-- C10: when the first attempted IP-provider endpoint answers with a
body whose trimmed text is not a parseable IP address, `GetPublicIp`
returns the literal string `"<nil>"` (the `String()` rendering of a nil
parsed IP) with a nil error, instead of rejecting the body or falling
through to the next provider. -/
theorem getPublicIp_unparseable_first_body (parseIp : String → Option String)
    (getBody : String → Except String String) (provider body : String)
    (rest : List String) (hne : provider ≠ "")
    (hbody : getBody provider = Except.ok body) (hparse : parseIp body = none) :
    GetPublicIp parseIp getBody (provider :: rest) = Except.ok "<nil>" := by
  simp [GetPublicIp, getPublicIpLoop, hne, hbody, hparse, ipString]

/-- Witness for C10 at a concrete endpoint list and body. -/
theorem getPublicIp_unparseable_first_body_witness :
    GetPublicIp (fun _ => none) (fun _ => Except.ok "not an ip")
      ("https://icanhazip.com" :: ["https://api.ipify.org"]) = Except.ok "<nil>" :=
  getPublicIp_unparseable_first_body _ _ _ _ _ (by decide) rfl rfl

/-- In-memory condition list after `UpdateConditions`, whatever the
patch outcome. -/
theorem UpdateConditions_conditions (env : ProviderEnv) (s : ProvState)
    (condition : Condition) :
    (UpdateConditions env s condition).1.provider.status.conditions
      = (SetStatusCondition env.now s.provider.status.conditions
          { condition with observedGeneration := s.provider.generation }).1 := by
  unfold UpdateConditions PatchStatus
  dsimp only
  split_ifs with h
  · cases hp : env.statusPatch s.patchCount <;> simp
  · simp

/-- In-memory condition list after `PatchConditions`, whatever the patch
outcome. -/
theorem PatchConditions_conditions (env : NotifierEnv) (s : NotifState)
    (ctype : String) (opts : List ConditionOption) :
    (PatchConditions env s ctype opts).1.notifier.status.conditions
      = (setCondition env.now s.notifier.status.conditions ctype
          (opts ++ [withObservedGeneration s.notifier.generation])).1 := by
  unfold PatchConditions
  dsimp only
  split_ifs with h
  · cases hp : env.statusPatch s.statusPatchCount <;> simp
  · simp

/-- Counterexample to C2: with the referenced Secret missing, both
Secret fetchers return the allocated empty Secret together with a nil
error — not a nil Secret with the propagated error — so the pass does
not abort at the Secret fetch. -/
theorem secret_fetcher_counterexample :
    (notifFetchSecret wNotifEnvSecretMissing wNotifState).2 = (some (), Except.ok ()) ∧
    (FetchSecret wProvEnvSecretMissing wProvState).2 = (some (), Except.ok ()) :=
  ⟨rfl, rfl⟩

/-- C2 (amended): when the referenced Secret does not exist, the Secret
fetcher records the Secret condition as not-found (the Notifier's
fetcher carries the underlying error message, the Provider's the message
"Secret `<name>` not found"), and returns the allocated empty Secret
with a nil error, so the reconcile pass does not abort at the Secret
fetch; on success it returns the Secret and records the condition with
message "Secret `<name>` found". -/
theorem secret_fetcher_records_not_found_but_swallows_error
    (penv penv2 : ProviderEnv) (ps ps2 : ProvState)
    (nenv nenv2 : NotifierEnv) (ns ns2 : NotifState) (e1 e2 : String)
    (hp : penv.secretGet = Except.error e1) (hn : nenv.secretGet = Except.error e2)
    (hp2 : penv2.secretGet = Except.ok ()) (hn2 : nenv2.secretGet = Except.ok ()) :
    ((FetchSecret penv ps).2 = (some (), Except.ok ()) ∧
      ∃ c, getCondition (FetchSecret penv ps).1.provider.status.conditions
          SecretConditionType = some c ∧
        c.status = conditionFalse ∧
        c.message = "Secret " ++ ps.provider.spec.secretName ++ " not found") ∧
    ((notifFetchSecret nenv ns).2 = (some (), Except.ok ()) ∧
      ∃ c, getCondition (notifFetchSecret nenv ns).1.notifier.status.conditions
          NotifierConditionTypeSecret = some c ∧
        c.status = conditionFalse ∧ c.message = e2) ∧
    ((FetchSecret penv2 ps2).2 = (some (), Except.ok ()) ∧
      ∃ c, getCondition (FetchSecret penv2 ps2).1.provider.status.conditions
          SecretConditionType = some c ∧
        c.status = conditionTrue ∧
        c.message = "Secret " ++ ps2.provider.spec.secretName ++ " found") ∧
    ((notifFetchSecret nenv2 ns2).2 = (some (), Except.ok ()) ∧
      ∃ c, getCondition (notifFetchSecret nenv2 ns2).1.notifier.status.conditions
          NotifierConditionTypeSecret = some c ∧
        c.status = conditionTrue ∧
        c.message = "Secret " ++ ns2.notifier.spec.secretName ++ " found") := by
  refine ⟨⟨?_, ?_⟩, ⟨?_, ?_⟩, ⟨?_, ?_⟩, ⟨?_, ?_⟩⟩
  · simp [FetchSecret, hp]
  · simp only [FetchSecret, hp]
    rw [UpdateConditions_conditions]
    obtain ⟨c, hc, h1, h2, h3, h4⟩ :=
      getCondition_SetStatusCondition_self penv.now ps.provider.status.conditions
        { ctype := SecretConditionType, reason := SecretFound
          message := "Secret " ++ ps.provider.spec.secretName ++ " not found"
          status := conditionFalse, observedGeneration := ps.provider.generation }
    exact ⟨c, hc, h1, h3⟩
  · simp [notifFetchSecret, hn]
  · simp only [notifFetchSecret, hn]
    rw [PatchConditions_conditions]
    obtain ⟨c, hc, h1, h2, h3, h4⟩ :=
      getCondition_setCondition_self nenv.now ns.notifier.status.conditions
        NotifierConditionTypeSecret "SecretFound" e2 optionFalse conditionFalse
        statusOptionSpec_false ns.notifier.generation
    exact ⟨c, hc, h1, h3⟩
  · simp [FetchSecret, hp2]
  · simp only [FetchSecret, hp2]
    rw [UpdateConditions_conditions]
    obtain ⟨c, hc, h1, h2, h3, h4⟩ :=
      getCondition_SetStatusCondition_self penv2.now ps2.provider.status.conditions
        { ctype := SecretConditionType, reason := SecretFound
          message := "Secret " ++ ps2.provider.spec.secretName ++ " found"
          status := conditionTrue, observedGeneration := ps2.provider.generation }
    exact ⟨c, hc, h1, h3⟩
  · simp [notifFetchSecret, hn2]
  · simp only [notifFetchSecret, hn2]
    rw [PatchConditions_conditions]
    obtain ⟨c, hc, h1, h2, h3, h4⟩ :=
      getCondition_setCondition_self nenv2.now ns2.notifier.status.conditions
        NotifierConditionTypeSecret "SecretFound"
        ("Secret " ++ ns2.notifier.spec.secretName ++ " found") optionTrue conditionTrue
        statusOptionSpec_true ns2.notifier.generation
    exact ⟨c, hc, h1, h3⟩

/-- Witness for C2 (amended) at concrete fetchers. -/
theorem secret_fetcher_records_not_found_but_swallows_error_witness :
    (FetchSecret wProvEnvSecretMissing wProvState).2 = (some (), Except.ok ()) ∧
    ∃ c, getCondition
        (FetchSecret wProvEnvSecretMissing wProvState).1.provider.status.conditions
        SecretConditionType = some c ∧
      c.status = conditionFalse ∧
      c.message = "Secret " ++ wProvState.provider.spec.secretName ++ " not found" :=
  (secret_fetcher_records_not_found_but_swallows_error
    wProvEnvSecretMissing wProvEnvOk wProvState wProvState
    wNotifEnvSecretMissing wNotifEnvOk wNotifState wNotifState
    "secrets \"cloudflare-secret\" not found"
    "secrets \"webhook-secret\" not found" rfl rfl rfl rfl).1

/-! ## Frame lemmas for the Notifier reconciler -/

theorem notifFrame_trans {s1 s2 s3 : NotifState} (h1 : notifFrame s1 s2)
    (h2 : notifFrame s2 s3) : notifFrame s1 s3 := by
  unfold notifFrame at *
  obtain ⟨a1, a2, a3, a4, a5, a6, a7, a8, a9, a10, a11, a12⟩ := h1
  obtain ⟨b1, b2, b3, b4, b5, b6, b7, b8, b9, b10, b11, b12⟩ := h2
  exact ⟨b1.trans a1, b2.trans a2, b3.trans a3, b4.trans a4, b5.trans a5, b6.trans a6,
    b7.trans a7, b8.trans a8, b9.trans a9, b10.trans a10, b11.trans a11, b12.trans a12⟩

/-- `PatchConditions` only rewrites the condition list: every other
observable is untouched, whatever the patch outcome. -/
theorem PatchConditions_frame (env : NotifierEnv) (s : NotifState) (ctype : String)
    (opts : List ConditionOption) : notifFrame s (PatchConditions env s ctype opts).1 := by
  unfold notifFrame PatchConditions
  dsimp only
  split_ifs with h
  · cases hp : env.statusPatch s.statusPatchCount <;>
      simp [mergeNotifierStatus]
  · simp

theorem notifFetchConfig_frame (env : NotifierEnv) (s : NotifState) :
    notifFrame s (notifFetchConfig env s).1 := by
  cases h : env.configMapGet with
  | error e =>
    simp only [notifFetchConfig, h]
    exact PatchConditions_frame env s _ _
  | ok u =>
    simp only [notifFetchConfig, h]
    exact PatchConditions_frame env s _ _

theorem notifFetchSecret_frame (env : NotifierEnv) (s : NotifState) :
    notifFrame s (notifFetchSecret env s).1 := by
  cases h : env.secretGet with
  | error e =>
    simp only [notifFetchSecret, h]
    exact PatchConditions_frame env s _ _
  | ok u =>
    simp only [notifFetchSecret, h]
    exact PatchConditions_frame env s _ _

theorem fetchNotifier_frame (env : NotifierEnv) (s : NotifState) :
    notifFrame s (fetchNotifier env s).1 := by
  unfold fetchNotifier
  cases hc : env.configMapGet with
  | error e =>
    simp only [notifFetchConfig, hc]
    exact PatchConditions_frame env s _ _
  | ok u =>
    simp only [notifFetchConfig, hc, notifFetchSecret]
    cases hs : env.secretGet with
    | error e2 =>
      exact notifFrame_trans
        (notifFrame_trans (PatchConditions_frame env s _ _) (PatchConditions_frame _ _ _ _))
        (PatchConditions_frame _ _ _ _)
    | ok u2 =>
      exact notifFrame_trans
        (notifFrame_trans (PatchConditions_frame env s _ _) (PatchConditions_frame _ _ _ _))
        (PatchConditions_frame _ _ _ _)

/-- `fetchNotifier` succeeds whenever the ConfigMap Get and the factory
succeed (a missing Secret alone cannot fail it). -/
theorem fetchNotifier_result (env : NotifierEnv) (s : NotifState)
    (hcfg : env.configMapGet = Except.ok ())
    (hfac : env.factory = Except.ok ()) :
    (fetchNotifier env s).2 = Except.ok () := by
  simp only [fetchNotifier, notifFetchConfig, notifFetchSecret, hcfg, hfac]

/-- Condition content after a `PatchConditions` call with the standard
reason/message/status option list. -/
theorem PatchConditions_condition_content (env : NotifierEnv) (s : NotifState)
    (ctype rsn msg : String) (stOpt : ConditionOption) (target : String)
    (hst : statusOptionSpec stOpt target) :
    ∃ c, getCondition (PatchConditions env s ctype
        [withReasonAndMessage rsn msg, stOpt]).1.notifier.status.conditions ctype = some c ∧
      c.status = target ∧ c.reason = rsn ∧ c.message = msg := by
  rw [PatchConditions_conditions]
  simp only [List.cons_append, List.nil_append]
  obtain ⟨c, hc, h1, h2, h3, h4⟩ := getCondition_setCondition_self env.now
    s.notifier.status.conditions ctype rsn msg stOpt target hst s.notifier.generation
  exact ⟨c, hc, h1, h2, h3⟩

/-- The Client condition right after `fetchNotifier` with a working
factory: created, true. -/
theorem fetchNotifier_client_condition (env : NotifierEnv) (s : NotifState)
    (hcfg : env.configMapGet = Except.ok ())
    (hfac : env.factory = Except.ok ()) :
    ∃ c, getCondition (fetchNotifier env s).1.notifier.status.conditions
        NotifierConditionTypeClient = some c ∧
      c.status = conditionTrue ∧ c.reason = "ClientCreated" ∧
      c.message = "Client created" := by
  unfold fetchNotifier
  simp only [notifFetchConfig, notifFetchSecret, hcfg, hfac]
  cases hs : env.secretGet <;>
    exact PatchConditions_condition_content env _ NotifierConditionTypeClient
      "ClientCreated" "Client created" optionTrue conditionTrue statusOptionSpec_true

/-- Trace fields of `notifPatchStatus`, whatever the mutation and patch
outcome: conditions and counters of record-keeping are untouched. -/
theorem notifPatchStatus_trace (env : NotifierEnv) (s : NotifState)
    (apply : Notifier → Notifier × Bool) :
    ((notifPatchStatus env s apply).1.greetingsSent = s.greetingsSent) ∧
    ((notifPatchStatus env s apply).1.notificationsSent = s.notificationsSent) ∧
    ((notifPatchStatus env s apply).1.listedProviders = s.listedProviders) ∧
    ((notifPatchStatus env s apply).1.patchedProviders = s.patchedProviders) := by
  unfold notifPatchStatus
  dsimp only
  split_ifs with h
  · cases hp : env.statusPatch s.statusPatchCount <;> simp
  · simp

/-- Effect of a `patchIsReady` step when status patches succeed. -/
theorem patchIsReady_step (env : NotifierEnv) (s : NotifState) (b : Bool)
    (hpatch : ∀ n, env.statusPatch n = Except.ok ()) :
    ((notifPatchStatus env s (patchIsReady b)).2 = Except.ok ()) ∧
    ((notifPatchStatus env s (patchIsReady b)).1.notifier.status.isReady = b) ∧
    ((notifPatchStatus env s (patchIsReady b)).1.persistedStatus.isReady
      = (if s.notifier.status.isReady = b then s.persistedStatus.isReady else b)) ∧
    ((notifPatchStatus env s (patchIsReady b)).1.notifier.status.conditions
      = s.notifier.status.conditions) ∧
    ((notifPatchStatus env s (patchIsReady b)).1.persistedStatus.conditions
      = s.persistedStatus.conditions) ∧
    ((notifPatchStatus env s (patchIsReady b)).1.notifier.generation
      = s.notifier.generation) := by
  unfold notifPatchStatus patchIsReady
  by_cases h : s.notifier.status.isReady = b
  · simp [h]
  · simp only [if_neg h]
    rw [hpatch s.statusPatchCount]
    simp [mergeNotifierStatus, h]

/-- When the stored condition's status or reason differs from the one
being set and status patches succeed, `PatchConditions` patches, and the
persisted condition list converges to the in-memory one. -/
theorem PatchConditions_persist (env : NotifierEnv) (s : NotifState)
    (ctype rsn msg : String) (stOpt : ConditionOption) (target : String)
    (hst : statusOptionSpec stOpt target)
    (hpatch : ∀ n, env.statusPatch n = Except.ok ())
    (hne0 : ∀ c0, getCondition s.notifier.status.conditions ctype = some c0 →
      (c0.status ≠ target ∨ c0.reason ≠ rsn)) :
    (PatchConditions env s ctype
        [withReasonAndMessage rsn msg, stOpt]).1.persistedStatus.conditions
      = (PatchConditions env s ctype
        [withReasonAndMessage rsn msg, stOpt]).1.notifier.status.conditions := by
  have hch : (setCondition env.now s.notifier.status.conditions ctype
      [withReasonAndMessage rsn msg, stOpt,
        withObservedGeneration s.notifier.generation]).2 = true :=
    setCondition_changed_of_ne env.now s.notifier.status.conditions ctype rsn msg stOpt
      target hst s.notifier.generation hne0
  have hne : ¬ (s.notifier.status.conditions
      = (setCondition env.now s.notifier.status.conditions ctype
        [withReasonAndMessage rsn msg, stOpt,
          withObservedGeneration s.notifier.generation]).1) := by
    intro heq
    obtain ⟨c, hc, h1, h2, _, _⟩ := getCondition_setCondition_self env.now
      s.notifier.status.conditions ctype rsn msg stOpt target hst s.notifier.generation
    rw [← heq] at hc
    cases hne0 c hc with
    | inl hx => exact hx h1
    | inr hx => exact hx h2
  unfold PatchConditions
  dsimp only
  simp only [List.cons_append, List.nil_append]
  rw [hch]
  simp only [if_true]
  rw [hpatch s.statusPatchCount]
  simp [mergeNotifierStatus, hne]

/-- `markAsReady` when the greeting send fails: the wrapped error is
returned before the ready flag is touched, and the Client condition is
recorded false with the wrapped message (persisted too, since the
condition had a different status before). -/
theorem markAsReady_greeting_error (env : NotifierEnv) (s : NotifState) (e : String)
    (hg : env.sendGreetings = Except.error e)
    (hpatch : ∀ n, env.statusPatch n = Except.ok ())
    (hstat : ∀ c0, getCondition s.notifier.status.conditions NotifierConditionTypeClient
      = some c0 → c0.status ≠ conditionFalse) :
    ((markAsReady env s).2 = Except.error ("unable to send greetings: " ++ e)) ∧
    ((markAsReady env s).1.notifier.status.isReady = s.notifier.status.isReady) ∧
    ((markAsReady env s).1.persistedStatus.isReady = s.persistedStatus.isReady) ∧
    (∃ c, getCondition (markAsReady env s).1.notifier.status.conditions
        NotifierConditionTypeClient = some c ∧
      c.status = conditionFalse ∧ c.reason = "ClientCommunication" ∧
      c.message = "unable to send greetings: " ++ e) ∧
    ((markAsReady env s).1.persistedStatus.conditions
      = (markAsReady env s).1.notifier.status.conditions) ∧
    ((markAsReady env s).1.notificationsSent = s.notificationsSent) ∧
    ((markAsReady env s).1.greetingsSent = s.greetingsSent + 1) ∧
    ((markAsReady env s).1.listedProviders = s.listedProviders) := by
  have hframe := PatchConditions_frame env { s with greetingsSent := s.greetingsSent + 1 }
    NotifierConditionTypeClient
    [withReasonAndMessage "ClientCommunication" ("unable to send greetings: " ++ e),
      optionFalse]
  unfold notifFrame at hframe
  obtain ⟨f1, f2, f3, f4, f5, f6, f7, f8, f9, f10, f11, f12⟩ := hframe
  have hcont := PatchConditions_condition_content env
    { s with greetingsSent := s.greetingsSent + 1 } NotifierConditionTypeClient
    "ClientCommunication" ("unable to send greetings: " ++ e) optionFalse conditionFalse
    statusOptionSpec_false
  have hpers := PatchConditions_persist env { s with greetingsSent := s.greetingsSent + 1 }
    NotifierConditionTypeClient "ClientCommunication" ("unable to send greetings: " ++ e)
    optionFalse conditionFalse statusOptionSpec_false hpatch
    (fun c0 h => Or.inl (hstat c0 h))
  unfold markAsReady
  simp only [hg]
  obtain ⟨c, hc, h1, h2, h3⟩ := hcont
  exact ⟨trivial, f5, f7, ⟨c, hc, h1, h2, h3⟩, hpers, f10, f9, f11⟩

/-- `markAsReady` when the greeting send succeeds: Client condition true
with "Communications established", ready flag flipped and persisted. -/
theorem markAsReady_greeting_ok (env : NotifierEnv) (s : NotifState)
    (hg : env.sendGreetings = Except.ok ())
    (hpatch : ∀ n, env.statusPatch n = Except.ok ())
    (hreason : ∀ c0, getCondition s.notifier.status.conditions NotifierConditionTypeClient
      = some c0 → c0.reason ≠ "ClientCommunication") :
    ((markAsReady env s).2 = Except.ok ()) ∧
    ((markAsReady env s).1.notifier.status.isReady = true) ∧
    ((markAsReady env s).1.persistedStatus.isReady
      = (if s.notifier.status.isReady = true then s.persistedStatus.isReady else true)) ∧
    (∃ c, getCondition (markAsReady env s).1.notifier.status.conditions
        NotifierConditionTypeClient = some c ∧
      c.status = conditionTrue ∧ c.reason = "ClientCommunication" ∧
      c.message = "Communications established") ∧
    ((markAsReady env s).1.persistedStatus.conditions
      = (markAsReady env s).1.notifier.status.conditions) ∧
    ((markAsReady env s).1.notificationsSent = s.notificationsSent) ∧
    ((markAsReady env s).1.greetingsSent = s.greetingsSent + 1) ∧
    ((markAsReady env s).1.listedProviders = s.listedProviders) := by
  have hframe := PatchConditions_frame env { s with greetingsSent := s.greetingsSent + 1 }
    NotifierConditionTypeClient
    [withReasonAndMessage "ClientCommunication" "Communications established", optionTrue]
  unfold notifFrame at hframe
  obtain ⟨f1, f2, f3, f4, f5, f6, f7, f8, f9, f10, f11, f12⟩ := hframe
  have hcont := PatchConditions_condition_content env
    { s with greetingsSent := s.greetingsSent + 1 } NotifierConditionTypeClient
    "ClientCommunication" "Communications established" optionTrue conditionTrue
    statusOptionSpec_true
  have hpers := PatchConditions_persist env { s with greetingsSent := s.greetingsSent + 1 }
    NotifierConditionTypeClient "ClientCommunication" "Communications established"
    optionTrue conditionTrue statusOptionSpec_true hpatch
    (fun c0 h => Or.inr (hreason c0 h))
  have hstep := patchIsReady_step env
    (PatchConditions env { s with greetingsSent := s.greetingsSent + 1 }
      NotifierConditionTypeClient
      [withReasonAndMessage "ClientCommunication" "Communications established",
        optionTrue]).1 true hpatch
  have htrace := notifPatchStatus_trace env
    (PatchConditions env { s with greetingsSent := s.greetingsSent + 1 }
      NotifierConditionTypeClient
      [withReasonAndMessage "ClientCommunication" "Communications established",
        optionTrue]).1 (patchIsReady true)
  unfold markAsReady
  simp only [hg]
  simp only [hstep.1]
  obtain ⟨c, hc, h1, h2, h3⟩ := hcont
  refine ⟨trivial, hstep.2.1, ?_, ⟨c, ?_, h1, h2, h3⟩, ?_, ?_, ?_, ?_⟩
  · rw [hstep.2.2.1, f5, f7]
  · rw [hstep.2.2.2.1]
    exact hc
  · rw [hstep.2.2.2.2.1, hstep.2.2.2.1]
    exact hpers
  · rw [htrace.2.1]
    exact f10
  · rw [htrace.1]
    exact f9
  · rw [htrace.2.2.1]
    exact f11

/-- `markAsReady` never records a change notification, whatever the
environment. -/
theorem markAsReady_notifications (env : NotifierEnv) (s : NotifState) :
    (markAsReady env s).1.notificationsSent = s.notificationsSent := by
  have FG : ∀ (s2 : NotifState) (ctype : String) (opts : List ConditionOption),
      (PatchConditions env s2 ctype opts).1.notificationsSent = s2.notificationsSent := by
    intro s2 ctype opts
    have h := PatchConditions_frame env s2 ctype opts
    unfold notifFrame at h
    exact h.2.2.2.2.2.2.2.2.2.1
  unfold markAsReady
  dsimp only
  cases hg : env.sendGreetings with
  | error e =>
    dsimp only
    simp [FG]
  | ok u =>
    dsimp only
    split <;> simp [notifPatchStatus_trace, FG]

/-- `notifyOfChange` never sends a greeting, whatever the environment. -/
theorem notifyOfChange_greetings (env : NotifierEnv) (reqName reqNamespace : String)
    (s : NotifState) (provider : Provider) :
    (notifyOfChange env reqName reqNamespace s provider).1.greetingsSent
      = s.greetingsSent := by
  have FG : ∀ (s2 : NotifState) (ctype : String) (opts : List ConditionOption),
      (PatchConditions env s2 ctype opts).1.greetingsSent = s2.greetingsSent := by
    intro s2 ctype opts
    have h := PatchConditions_frame env s2 ctype opts
    unfold notifFrame at h
    exact h.2.2.2.2.2.2.2.2.1
  unfold notifyOfChange
  dsimp only
  split_ifs with h1 h2 h3
  · rfl
  · rfl
  · split
    · simp [notifPatchStatus_trace, FG]
    · split <;> simp [notifPatchStatus_trace, FG]
  · split
    · simp [notifPatchStatus_trace, FG]
    · split <;> simp [notifPatchStatus_trace, FG]

/-- The notification loop never sends a greeting. -/
theorem notifyLoop_greetings (env : NotifierEnv) (reqName reqNamespace : String)
    (l : List Provider) : ∀ s : NotifState,
    (notifyLoop env reqName reqNamespace s l).1.greetingsSent = s.greetingsSent := by
  induction l with
  | nil => intro s; rfl
  | cons p rest ih =>
    intro s
    unfold notifyLoop
    dsimp only
    split
    · simp [notifyOfChange_greetings env reqName reqNamespace s p]
    · rw [ih _]
      simp [notifyOfChange_greetings env reqName reqNamespace s p]

/-- C7: a Notifier pass that starts not-ready and whose greeting send
fails keeps `status.isReady` false (in memory and persisted), records
the Client condition with status False and the message
"unable to send greetings: `<err>`" (persisted alongside), and returns a
non-nil error. -/
theorem notifier_greeting_failure_keeps_not_ready (env : NotifierEnv)
    (reqName reqNamespace : String) (n0 : Notifier) (e : String)
    (hready : n0.status.isReady = false)
    (hcfg : env.configMapGet = Except.ok ())
    (hfac : env.factory = Except.ok ())
    (hg : env.sendGreetings = Except.error e)
    (hpatch : ∀ n, env.statusPatch n = Except.ok ()) :
    ((NotifierReconcile env reqName reqNamespace n0).2 = Except.error
      ("unable to mark Notifier as ready: " ++ ("unable to send greetings: " ++ e))) ∧
    ((NotifierReconcile env reqName reqNamespace n0).1.notifier.status.isReady = false) ∧
    ((NotifierReconcile env reqName reqNamespace n0).1.persistedStatus.isReady = false) ∧
    (∃ c, getCondition
        (NotifierReconcile env reqName reqNamespace n0).1.notifier.status.conditions
        NotifierConditionTypeClient = some c ∧
      c.status = conditionFalse ∧ c.message = "unable to send greetings: " ++ e) ∧
    ((NotifierReconcile env reqName reqNamespace n0).1.persistedStatus.conditions
      = (NotifierReconcile env reqName reqNamespace n0).1.notifier.status.conditions) := by
  have hFN := fun s => fetchNotifier_result env s hcfg hfac
  have hfr := fetchNotifier_frame env
    { notifier := { n0 with status := { n0.status with conditions :=
        (fillConditions env.now notifierConditionTypes n0.status.conditions).1 } }
      persistedStatus := n0.status }
  unfold notifFrame at hfr
  have hrd : (fetchNotifier env
      { notifier := { n0 with status := { n0.status with conditions :=
          (fillConditions env.now notifierConditionTypes n0.status.conditions).1 } }
        persistedStatus := n0.status }).1.notifier.status.isReady = false := by
    rw [hfr.2.2.2.2.1]
    exact hready
  have hstat : ∀ c0, getCondition (fetchNotifier env
      { notifier := { n0 with status := { n0.status with conditions :=
          (fillConditions env.now notifierConditionTypes n0.status.conditions).1 } }
        persistedStatus := n0.status }).1.notifier.status.conditions
      NotifierConditionTypeClient = some c0 → c0.status ≠ conditionFalse := by
    intro c0 h
    obtain ⟨c, hc, htrue, _, _⟩ := fetchNotifier_client_condition env
      { notifier := { n0 with status := { n0.status with conditions :=
          (fillConditions env.now notifierConditionTypes n0.status.conditions).1 } }
        persistedStatus := n0.status } hcfg hfac
    have hcc := h.symm.trans hc
    injection hcc with hcc
    rw [hcc, htrue]
    simp [conditionTrue, conditionFalse]
  have hmar := markAsReady_greeting_error env
    ((fetchNotifier env
      { notifier := { n0 with status := { n0.status with conditions :=
          (fillConditions env.now notifierConditionTypes n0.status.conditions).1 } }
        persistedStatus := n0.status }).1) e hg hpatch hstat
  simp only [NotifierReconcile, hFN, hrd, Bool.not_false, if_true, hmar.1]
  obtain ⟨c, hc, hs1, hs2, hs3⟩ := hmar.2.2.2.1
  refine ⟨trivial, ?_, ?_, ⟨c, hc, hs1, hs3⟩, hmar.2.2.2.2.1⟩
  · rw [hmar.2.1, hrd]
  · rw [hmar.2.2.1, hfr.2.2.2.2.2.2.1]
    exact hready

/-- In any single Notifier pass, either no greeting or no change
notification is dispatched: the two are never combined. -/
theorem notifier_pass_never_combines (env : NotifierEnv) (reqName reqNamespace : String)
    (n0 : Notifier) :
    (NotifierReconcile env reqName reqNamespace n0).1.greetingsSent = 0 ∨
    (NotifierReconcile env reqName reqNamespace n0).1.notificationsSent = [] := by
  have FGf : ∀ s, (fetchNotifier env s).1.greetingsSent = s.greetingsSent := by
    intro s
    have h := fetchNotifier_frame env s
    unfold notifFrame at h
    exact h.2.2.2.2.2.2.2.2.1
  have FNf : ∀ s, (fetchNotifier env s).1.notificationsSent = s.notificationsSent := by
    intro s
    have h := fetchNotifier_frame env s
    unfold notifFrame at h
    exact h.2.2.2.2.2.2.2.2.2.1
  by_cases hb : (fetchNotifier env
      { notifier := { n0 with status := { n0.status with conditions :=
          (fillConditions env.now notifierConditionTypes n0.status.conditions).1 } }
        persistedStatus := n0.status }).1.notifier.status.isReady = true
  · left
    simp only [NotifierReconcile]
    split
    · simp [FGf]
    · simp only [hb, Bool.not_true, Bool.false_eq_true, if_false]
      split
      · simp [FGf]
      · split
        · simp [notifyLoop_greetings, notifPatchStatus_trace, FGf]
        · split <;>
            simp [notifyLoop_greetings, notifPatchStatus_trace, FGf]
  · right
    simp only [Bool.not_eq_true] at hb
    simp only [NotifierReconcile]
    split
    · simp [FNf]
    · simp only [hb, Bool.not_false, if_true]
      split <;>
        simp [markAsReady_notifications, FNf]

/-- C9: a Notifier pass that starts not-ready and whose greeting send
succeeds records the Client condition True with
"Communications established" (persisted alongside), flips `isReady` to
true, and returns an immediate requeue without listing Providers or
dispatching any change notification; moreover, no pass ever dispatches
both a greeting and a change notification. -/
theorem notifier_greeting_success_requeues (env : NotifierEnv)
    (reqName reqNamespace : String) (n0 : Notifier)
    (hready : n0.status.isReady = false)
    (hcfg : env.configMapGet = Except.ok ())
    (hfac : env.factory = Except.ok ())
    (hg : env.sendGreetings = Except.ok ())
    (hpatch : ∀ n, env.statusPatch n = Except.ok ()) :
    ((NotifierReconcile env reqName reqNamespace n0).2
      = Except.ok { requeue := true, requeueAfterSeconds := 0 }) ∧
    ((NotifierReconcile env reqName reqNamespace n0).1.notifier.status.isReady = true) ∧
    ((NotifierReconcile env reqName reqNamespace n0).1.persistedStatus.isReady = true) ∧
    (∃ c, getCondition
        (NotifierReconcile env reqName reqNamespace n0).1.notifier.status.conditions
        NotifierConditionTypeClient = some c ∧
      c.status = conditionTrue ∧ c.message = "Communications established") ∧
    ((NotifierReconcile env reqName reqNamespace n0).1.persistedStatus.conditions
      = (NotifierReconcile env reqName reqNamespace n0).1.notifier.status.conditions) ∧
    ((NotifierReconcile env reqName reqNamespace n0).1.notificationsSent = []) ∧
    ((NotifierReconcile env reqName reqNamespace n0).1.listedProviders = false) ∧
    ((NotifierReconcile env reqName reqNamespace n0).1.greetingsSent = 1) ∧
    (∀ (env2 : NotifierEnv) (rn2 rns2 : String) (n2 : Notifier),
      (NotifierReconcile env2 rn2 rns2 n2).1.greetingsSent = 0 ∨
      (NotifierReconcile env2 rn2 rns2 n2).1.notificationsSent = []) := by
  have hFN := fun s => fetchNotifier_result env s hcfg hfac
  have hfr := fetchNotifier_frame env
    { notifier := { n0 with status := { n0.status with conditions :=
        (fillConditions env.now notifierConditionTypes n0.status.conditions).1 } }
      persistedStatus := n0.status }
  unfold notifFrame at hfr
  have hrd : (fetchNotifier env
      { notifier := { n0 with status := { n0.status with conditions :=
          (fillConditions env.now notifierConditionTypes n0.status.conditions).1 } }
        persistedStatus := n0.status }).1.notifier.status.isReady = false := by
    rw [hfr.2.2.2.2.1]
    exact hready
  have hreason : ∀ c0, getCondition (fetchNotifier env
      { notifier := { n0 with status := { n0.status with conditions :=
          (fillConditions env.now notifierConditionTypes n0.status.conditions).1 } }
        persistedStatus := n0.status }).1.notifier.status.conditions
      NotifierConditionTypeClient = some c0 → c0.reason ≠ "ClientCommunication" := by
    intro c0 h
    obtain ⟨c, hc, _, hrsn, _⟩ := fetchNotifier_client_condition env
      { notifier := { n0 with status := { n0.status with conditions :=
          (fillConditions env.now notifierConditionTypes n0.status.conditions).1 } }
        persistedStatus := n0.status } hcfg hfac
    have hcc := h.symm.trans hc
    injection hcc with hcc
    rw [hcc, hrsn]
    simp
  have hmar := markAsReady_greeting_ok env
    ((fetchNotifier env
      { notifier := { n0 with status := { n0.status with conditions :=
          (fillConditions env.now notifierConditionTypes n0.status.conditions).1 } }
        persistedStatus := n0.status }).1) hg hpatch hreason
  simp only [NotifierReconcile, hFN, hrd, Bool.not_false, if_true, hmar.1]
  obtain ⟨c, hc, hs1, hs2, hs3⟩ := hmar.2.2.2.1
  refine ⟨trivial, hmar.2.1, ?_, ⟨c, hc, hs1, hs3⟩, hmar.2.2.2.2.1, ?_, ?_, ?_,
    fun env2 rn2 rns2 n2 => notifier_pass_never_combines env2 rn2 rns2 n2⟩
  · rw [hmar.2.2.1, hrd]
    simp
  · rw [hmar.2.2.2.2.2.1, hfr.2.2.2.2.2.2.2.2.2.1]
  · rw [hmar.2.2.2.2.2.2.2, hfr.2.2.2.2.2.2.2.2.2.2.1]
  · rw [hmar.2.2.2.2.2.2.1, hfr.2.2.2.2.2.2.2.2.1]

/-- C5: for a ready Notifier, `notifyOfChange` is a strict no-op for a
Provider whose stored change-marker annotation already equals
`status.providerIP`, or whose `status.providerIP` is empty:
`SendNotification` is not invoked and nothing changes. -/
theorem notifyOfChange_skips_unchanged_or_empty (env : NotifierEnv)
    (reqName reqNamespace : String) (s : NotifState) (provider : Provider)
    (h : lookupAnnot provider.annotations (annotKey reqName reqNamespace)
          = some provider.status.providerIP ∨
        provider.status.providerIP = "") :
    notifyOfChange env reqName reqNamespace s provider = (s, provider, Except.ok ()) := by
  unfold notifyOfChange
  dsimp only
  cases h with
  | inl ha => simp [ha]
  | inr hb =>
    cases hl : lookupAnnot provider.annotations (annotKey reqName reqNamespace) with
    | none => simp [hl, hb]
    | some v =>
      by_cases hv : v = provider.status.providerIP
      · simp [hl, hv]
      · simp [hl, hb, hv]

/-- Witness for C5 at a concrete Provider whose annotation already holds
the current IP. -/
theorem notifyOfChange_skips_unchanged_or_empty_witness :
    notifyOfChange wNotifEnvProv "test-notifier" "default" wNotifState wRefProvSkip
      = (wNotifState, wRefProvSkip, Except.ok ()) :=
  notifyOfChange_skips_unchanged_or_empty wNotifEnvProv "test-notifier" "default"
    wNotifState wRefProvSkip (Or.inl rfl)

/-- C6: for a Provider whose IP changed (annotation differs, IP
non-empty), the dispatched message is exactly the in-sync / out-of-sync
text of `notificationMessage`, and the annotation is persisted with the
new IP exactly when `SendNotification` succeeded. -/
theorem notifyOfChange_message_and_marker (env : NotifierEnv)
    (reqName reqNamespace : String) (s : NotifState) (provider : Provider)
    (hskip : lookupAnnot provider.annotations (annotKey reqName reqNamespace)
        ≠ some provider.status.providerIP)
    (hip : provider.status.providerIP ≠ "")
    (hpp : ∀ n, env.providerPatch n = Except.ok ()) :
    ((notifyOfChange env reqName reqNamespace s provider).1.notificationsSent
      = s.notificationsSent ++ [notificationMessage provider]) ∧
    (env.sendNotification (notificationMessage provider) = Except.ok () →
      (notifyOfChange env reqName reqNamespace s provider).2.1
        = { provider with
            annotations := setAnnot provider.annotations
                (annotKey reqName reqNamespace) provider.status.providerIP }) ∧
    (∀ e, env.sendNotification (notificationMessage provider) = Except.error e →
      (notifyOfChange env reqName reqNamespace s provider).2.1 = provider) := by
  have FN : ∀ (s2 : NotifState) (ctype : String) (opts : List ConditionOption),
      (PatchConditions env s2 ctype opts).1.notificationsSent = s2.notificationsSent := by
    intro s2 ctype opts
    have h := PatchConditions_frame env s2 ctype opts
    unfold notifFrame at h
    exact h.2.2.2.2.2.2.2.2.2.1
  have hskipb : (match lookupAnnot provider.annotations (annotKey reqName reqNamespace) with
      | some value => value == provider.status.providerIP
      | none => false) = false := by
    cases hl : lookupAnnot provider.annotations (annotKey reqName reqNamespace) with
    | none => rfl
    | some v =>
      have hv : v ≠ provider.status.providerIP := fun hv => hskip (by rw [hl, hv])
      simp [hv]
  simp only [notificationMessage]
  unfold notifyOfChange
  dsimp only
  simp only [hskipb, Bool.false_eq_true, if_false, if_neg hip]
  refine ⟨?_, ?_, ?_⟩
  · split
    · simp [notifPatchStatus_trace, FN]
    · split <;> simp [notifPatchStatus_trace, FN, hpp]
  · intro hsend
    simp only [hsend, hpp]
  · intro e hsend
    simp only [hsend]

/-- Witness for C6 at a concrete changed Provider with a successful
send: exact in-sync message and persisted annotation. -/
theorem notifyOfChange_message_and_marker_witness :
    ((notifyOfChange wNotifEnvProv "test-notifier" "default" wNotifState
        wRefProv).1.notificationsSent
      = wNotifState.notificationsSent ++ [notificationMessage wRefProv]) ∧
    ((notifyOfChange wNotifEnvProv "test-notifier" "default" wNotifState
        wRefProv).2.1
      = { wRefProv with
          annotations := setAnnot wRefProv.annotations
              (annotKey "test-notifier" "default") wRefProv.status.providerIP }) :=
  ⟨(notifyOfChange_message_and_marker wNotifEnvProv "test-notifier" "default"
      wNotifState wRefProv (by decide) (by decide) (fun _ => rfl)).1,
   (notifyOfChange_message_and_marker wNotifEnvProv "test-notifier" "default"
      wNotifState wRefProv (by decide) (by decide) (fun _ => rfl)).2.1 rfl⟩

/-- `notifyOfChange` when the send fails: the error propagates, the
server-side Provider (and so its change-marker annotation) is untouched,
the ready flag is demoted and the Client condition recorded false. -/
theorem notifyOfChange_send_failure (env : NotifierEnv) (reqName reqNamespace : String)
    (s : NotifState) (p : Provider) (e : String)
    (hskip : lookupAnnot p.annotations (annotKey reqName reqNamespace)
        ≠ some p.status.providerIP)
    (hip : p.status.providerIP ≠ "")
    (hsend : env.sendNotification (notificationMessage p) = Except.error e)
    (hpatch : ∀ n, env.statusPatch n = Except.ok ())
    (hstat : ∀ c0, getCondition s.notifier.status.conditions NotifierConditionTypeClient
      = some c0 → c0.status ≠ conditionFalse) :
    ((notifyOfChange env reqName reqNamespace s p).2.2 = Except.error e) ∧
    ((notifyOfChange env reqName reqNamespace s p).2.1 = p) ∧
    ((notifyOfChange env reqName reqNamespace s p).1.notifier.status.isReady = false) ∧
    ((notifyOfChange env reqName reqNamespace s p).1.persistedStatus.isReady
      = (if s.notifier.status.isReady = false then s.persistedStatus.isReady else false)) ∧
    (∃ c, getCondition
        (notifyOfChange env reqName reqNamespace s p).1.notifier.status.conditions
        NotifierConditionTypeClient = some c ∧
      c.status = conditionFalse ∧ c.reason = "ClientCommunication" ∧
      c.message = "unable to send notification: " ++ e) ∧
    ((notifyOfChange env reqName reqNamespace s p).1.persistedStatus.conditions
      = (notifyOfChange env reqName reqNamespace s p).1.notifier.status.conditions) ∧
    ((notifyOfChange env reqName reqNamespace s p).1.patchedProviders
      = s.patchedProviders) ∧
    ((notifyOfChange env reqName reqNamespace s p).1.listedProviders
      = s.listedProviders) := by
  have hskipb : (match lookupAnnot p.annotations (annotKey reqName reqNamespace) with
      | some value => value == p.status.providerIP
      | none => false) = false := by
    cases hl : lookupAnnot p.annotations (annotKey reqName reqNamespace) with
    | none => rfl
    | some v =>
      have hv : v ≠ p.status.providerIP := fun hv => hskip (by rw [hl, hv])
      simp [hv]
  have HIR := fun s2 => patchIsReady_step env s2 false hpatch
  have HFR : ∀ (s2 : NotifState) (ctype : String) (opts : List ConditionOption),
      notifFrame s2 (PatchConditions env s2 ctype opts).1 := fun s2 ctype opts =>
    PatchConditions_frame env s2 ctype opts
  simp only [notifFrame] at HFR
  simp only [notificationMessage] at hsend
  unfold notifyOfChange
  dsimp only
  simp only [hskipb, Bool.false_eq_true, if_false, if_neg hip, hsend]
  refine ⟨trivial, trivial, ?_, ?_, ?_, ?_, ?_, ?_⟩
  · simp [HFR, HIR]
  · simp [HFR, HIR]
  · exact PatchConditions_condition_content env _ NotifierConditionTypeClient
      "ClientCommunication" ("unable to send notification: " ++ e) optionFalse
      conditionFalse statusOptionSpec_false
  · refine PatchConditions_persist env _ NotifierConditionTypeClient "ClientCommunication"
      _ optionFalse conditionFalse statusOptionSpec_false hpatch ?_
    have HIRc : ∀ s2, (notifPatchStatus env s2 (patchIsReady false)).1.notifier.status.conditions
        = s2.notifier.status.conditions := fun s2 => (HIR s2).2.2.2.1
    simp only [HIRc]
    intro c0 h
    exact Or.inl (hstat c0 h)
  · simp [HFR, notifPatchStatus_trace]
  · simp [HFR, notifPatchStatus_trace]

/-- C8: for a ready Notifier and a referencing Provider with a changed
IP, a failing `SendNotification` demotes `status.isReady` to false (in
memory and persisted), records the Client condition False (persisted
alongside), propagates the wrapped error out of `Reconcile`, and leaves
the server-side Provider — hence its change-marker annotation — at its
previous value, so the same notification is retried on the next pass. -/
theorem notifier_send_failure_demotes_and_retries (env : NotifierEnv)
    (reqName reqNamespace : String) (n0 : Notifier) (p : Provider) (e : String)
    (hready : n0.status.isReady = true)
    (hcfg : env.configMapGet = Except.ok ())
    (hfac : env.factory = Except.ok ())
    (hlist : env.listProviders = Except.ok [p])
    (href : (p.spec.notifierRefs.any (fun ref => ref.name == reqName)) = true)
    (hskip : lookupAnnot p.annotations (annotKey reqName reqNamespace)
        ≠ some p.status.providerIP)
    (hip : p.status.providerIP ≠ "")
    (hsend : env.sendNotification (notificationMessage p) = Except.error e)
    (hpatch : ∀ n, env.statusPatch n = Except.ok ()) :
    ((NotifierReconcile env reqName reqNamespace n0).2
      = Except.error ("unable to notify of change: " ++ e)) ∧
    ((NotifierReconcile env reqName reqNamespace n0).1.notifier.status.isReady = false) ∧
    ((NotifierReconcile env reqName reqNamespace n0).1.persistedStatus.isReady = false) ∧
    (∃ c, getCondition
        (NotifierReconcile env reqName reqNamespace n0).1.notifier.status.conditions
        NotifierConditionTypeClient = some c ∧
      c.status = conditionFalse ∧
      c.message = "unable to send notification: " ++ e) ∧
    ((NotifierReconcile env reqName reqNamespace n0).1.persistedStatus.conditions
      = (NotifierReconcile env reqName reqNamespace n0).1.notifier.status.conditions) ∧
    ((NotifierReconcile env reqName reqNamespace n0).1.patchedProviders = [p]) := by
  have hFN := fun s => fetchNotifier_result env s hcfg hfac
  have hfr := fetchNotifier_frame env
    { notifier := { n0 with status := { n0.status with conditions :=
        (fillConditions env.now notifierConditionTypes n0.status.conditions).1 } }
      persistedStatus := n0.status }
  unfold notifFrame at hfr
  have hrd : (fetchNotifier env
      { notifier := { n0 with status := { n0.status with conditions :=
          (fillConditions env.now notifierConditionTypes n0.status.conditions).1 } }
        persistedStatus := n0.status }).1.notifier.status.isReady = true := by
    rw [hfr.2.2.2.2.1]
    exact hready
  have hstat : ∀ c0, getCondition (fetchNotifier env
      { notifier := { n0 with status := { n0.status with conditions :=
          (fillConditions env.now notifierConditionTypes n0.status.conditions).1 } }
        persistedStatus := n0.status }).1.notifier.status.conditions
      NotifierConditionTypeClient = some c0 → c0.status ≠ conditionFalse := by
    intro c0 h
    obtain ⟨c, hc, htrue, _, _⟩ := fetchNotifier_client_condition env
      { notifier := { n0 with status := { n0.status with conditions :=
          (fillConditions env.now notifierConditionTypes n0.status.conditions).1 } }
        persistedStatus := n0.status } hcfg hfac
    have hcc := h.symm.trans hc
    injection hcc with hcc
    rw [hcc, htrue]
    simp [conditionTrue, conditionFalse]
  have hnoc := notifyOfChange_send_failure env reqName reqNamespace
    { (fetchNotifier env
        { notifier := { n0 with status := { n0.status with conditions :=
            (fillConditions env.now notifierConditionTypes n0.status.conditions).1 } }
          persistedStatus := n0.status }).1 with listedProviders := true }
    p e hskip hip hsend hpatch hstat
  simp only [NotifierReconcile, hFN, hrd, Bool.not_true, Bool.false_eq_true, if_false,
    hlist, filterProviders, List.filter_cons, href, if_true, List.filter_nil,
    notifyLoop, hnoc.1, hnoc.2.1]
  obtain ⟨c, hc, hcs, hcr, hcm⟩ := hnoc.2.2.2.2.1
  refine ⟨trivial, hnoc.2.2.1, ?_, ⟨c, hc, hcs, hcm⟩, hnoc.2.2.2.2.2.1, ?_⟩
  · rw [hnoc.2.2.2.1, hrd]
    simp
  · rw [hnoc.2.2.2.2.2.2.1, hfr.2.2.2.2.2.2.2.2.2.2.2]
    rfl

theorem notifier_greeting_failure_keeps_not_ready_witness :
    wNotif.status.isReady = false ∧
    ((NotifierReconcile wNotifEnvGreetFail "test-notifier" "default" wNotif).2
      = Except.error ("unable to mark Notifier as ready: "
          ++ ("unable to send greetings: " ++ "error sending greetings"))) ∧
    ((NotifierReconcile wNotifEnvGreetFail "test-notifier" "default"
        wNotif).1.notifier.status.isReady = false) ∧
    ((NotifierReconcile wNotifEnvGreetFail "test-notifier" "default"
        wNotif).1.persistedStatus.isReady = false) :=
  have h := notifier_greeting_failure_keeps_not_ready wNotifEnvGreetFail
    "test-notifier" "default" wNotif "error sending greetings"
    rfl rfl rfl rfl (fun _ => rfl)
  ⟨rfl, h.1, h.2.1, h.2.2.1⟩

theorem notifier_greeting_success_requeues_witness :
    wNotif.status.isReady = false ∧
    ((NotifierReconcile wNotifEnvOk "test-notifier" "default" wNotif).2
      = Except.ok { requeue := true, requeueAfterSeconds := 0 }) ∧
    ((NotifierReconcile wNotifEnvOk "test-notifier" "default"
        wNotif).1.notifier.status.isReady = true) ∧
    ((NotifierReconcile wNotifEnvOk "test-notifier" "default"
        wNotif).1.notificationsSent = []) ∧
    ((NotifierReconcile wNotifEnvOk "test-notifier" "default"
        wNotif).1.listedProviders = false) ∧
    ((NotifierReconcile wNotifEnvOk "test-notifier" "default"
        wNotif).1.greetingsSent = 1) :=
  have h := notifier_greeting_success_requeues wNotifEnvOk
    "test-notifier" "default" wNotif rfl rfl rfl rfl (fun _ => rfl)
  ⟨rfl, h.1, h.2.1, h.2.2.2.2.2.1, h.2.2.2.2.2.2.1, h.2.2.2.2.2.2.2.1⟩

theorem notifier_send_failure_demotes_and_retries_witness :
    wNotifReady.status.isReady = true ∧
    ((NotifierReconcile wNotifEnvSendFail "test-notifier" "default" wNotifReady).2
      = Except.error ("unable to notify of change: "
          ++ "error sending notification")) ∧
    ((NotifierReconcile wNotifEnvSendFail "test-notifier" "default"
        wNotifReady).1.notifier.status.isReady = false) ∧
    ((NotifierReconcile wNotifEnvSendFail "test-notifier" "default"
        wNotifReady).1.persistedStatus.isReady = false) ∧
    ((NotifierReconcile wNotifEnvSendFail "test-notifier" "default"
        wNotifReady).1.patchedProviders = [wRefProv]) :=
  have h := notifier_send_failure_demotes_and_retries wNotifEnvSendFail
    "test-notifier" "default" wNotifReady wRefProv "error sending notification"
    rfl rfl rfl rfl rfl (by decide) (by decide) rfl (fun _ => rfl)
  ⟨rfl, h.1, h.2.1, h.2.2.1, h.2.2.2.2.2⟩

end DDNS
